import Mathlib

/-!
# S3 security monitor dashboard: the client-side synchronisation layer

A shallow embedding of the dashboard's orchestration code
(`App.jsx`, `services/api.js`, `components/BucketCard.jsx`,
`components/SecurityStats.jsx`, `components/Header.jsx`) together with the
properties of it that the design document states.

JavaScript values are embedded as the inductive type `JsVal`; exceptions are
embedded with `Except JsError`; network calls are parameters of the embedded
functions and every call made is recorded in a trace.
-/

namespace S3Monitor

/-! ## JavaScript values -/

/-- The values a parsed JSON document (or a missing property) can hold. `undefined` is what
reading a missing property gives. A number is held as its string conversion, the text of
`String(n)`, which tells two numbers apart unless they are the two zeros: the code reads a
number's truthiness and its string conversion, and its arithmetic is left to the engine. -/
inductive JsVal where
  | undefined
  | null
  | bool (b : Bool)
  | num (text : String)
  | str (s : String)
  | arr (items : List JsVal)
  | obj (fields : List (String × JsVal))

namespace JsVal

/-- ToBoolean: `undefined`, `null`, `false`, the zeros, NaN and `""` are falsy, all else
truthy (in particular `[]` and the empty object are truthy). -/
def truthy : JsVal → Bool
  | .undefined => false
  | .null => false
  | .bool b => b
  | .num text => text != "0" && text != "NaN"
  | .str s => s != ""
  | .arr _ => true
  | .obj _ => true

/-- The expression `a || b`. -/
def or (a b : JsVal) : JsVal := if a.truthy then a else b

/-- The test `v === 'lit'` against a string literal. -/
def strictEqStr (v : JsVal) (lit : String) : Bool :=
  match v with
  | .str s => s == lit
  | _ => false

/-- Whether the value is `null` or `undefined`. -/
def nullish : JsVal → Bool
  | .undefined => true
  | .null => true
  | _ => false

/-- `Array.isArray(v)`. -/
def isArray : JsVal → Bool
  | .arr _ => true
  | _ => false

end JsVal

/-- Own-property lookup in an object, `undefined` when the key is missing. -/
def lookup (k : String) : List (String × JsVal) → JsVal
  | [] => .undefined
  | (k', v) :: rest => if k' = k then v else lookup k rest

/-- The value of `v.k` for a non-nullish `v` and a key `k` that no built-in prototype
defines (all keys read by the dashboard are such): the own property of an object,
`undefined` on any other value. -/
def propOf (v : JsVal) (k : String) : JsVal :=
  match v with
  | .obj fields => lookup k fields
  | _ => .undefined

/-- The value of `v?.k`: `undefined` on `null` and `undefined`. -/
def optProp (v : JsVal) (k : String) : JsVal := propOf v k

/-- The value of `v?.[0]`. Of the result only the property `msg` is read, which a string
does not have. -/
def optIndex0 (v : JsVal) : JsVal :=
  match v with
  | .arr (x :: _) => x
  | .str s =>
    match s.data with
    | c :: _ => .str (String.singleton c)
    | [] => .undefined
  | .obj fields => lookup "0" fields
  | _ => .undefined

/-- Whether an object has an own property of the given name. -/
def hasOwn (k : String) (fields : List (String × JsVal)) : Bool :=
  fields.any fun field => field.1 == k

/-! ## Strings -/

/-- The text of `s.toLowerCase()`, folding the letters `A`–`Z` (the engine
also folds letters outside ASCII; none of those folds to a letter of the words searched
for below). -/
def toLowerCase (s : String) : String := ⟨s.data.map Char.toLower⟩

/-- Whether `w` occurs in `s` starting at some position of `s`. -/
def includesChars : List Char → List Char → Bool
  | [], w => w.isEmpty
  | c :: cs, w => w.isPrefixOf (c :: cs) || includesChars cs w

/-- The test `s.includes(w)`. -/
def includes (s w : String) : Bool := includesChars s.data w.data

/-! ## Errors -/

/-- What the server answered: `error.response.status` and `error.response.data`. -/
structure Response where
  status : Nat
  data : JsVal

/-- A thrown error object, with the properties the code inspects:
`message`, `code`, `response` (absent: `none`) and whether `request` is set. -/
structure JsError where
  name : String
  message : String
  code : Option String
  response : Option Response
  request : Bool

/-- The object built by `new Error(message)`. -/
def newError (message : String) : JsError :=
  { name := "Error", message := message, code := none, response := none, request := false }

/-- The TypeError the engine throws on a property read of `null`/`undefined` or on a call
of something that is no function. -/
def typeError (message : String) : JsError :=
  { name := "TypeError", message := message, code := none, response := none, request := false }

mutual
/-- ToString on JSON values, as `new Error(v)` and `'text' + v` apply it: an array joins its
elements with a comma, a plain object gives `[object Object]`, and an object with an own
property `toString` (which in JSON is no function) cannot be converted, a TypeError. -/
def jsToString : JsVal → Except JsError String
  | .undefined => .ok "undefined"
  | .null => .ok "null"
  | .bool b => .ok (if b then "true" else "false")
  | .num text => .ok text
  | .str s => .ok s
  | .arr items => joinItems items
  | .obj fields =>
    if hasOwn "toString" fields then
      .error (typeError "Cannot convert object to primitive value")
    else .ok "[object Object]"
/-- The text of `items.join(",")`. -/
def joinItems : List JsVal → Except JsError String
  | [] => .ok ""
  | [x] => itemToString x
  | x :: y :: rest =>
    match itemToString x with
    | .error thrown => .error thrown
    | .ok first =>
      match joinItems (y :: rest) with
      | .error thrown => .error thrown
      | .ok others => .ok (first ++ "," ++ others)
/-- The text one array element contributes to `join`: nothing for `null` and `undefined`,
else its string conversion. -/
def itemToString : JsVal → Except JsError String
  | .undefined => .ok ""
  | .null => .ok ""
  | .bool b => .ok (if b then "true" else "false")
  | .num text => .ok text
  | .str s => .ok s
  | .arr items => joinItems items
  | .obj fields =>
    if hasOwn "toString" fields then
      .error (typeError "Cannot convert object to primitive value")
    else .ok "[object Object]"
end

/-- What `throw new Error(v)` throws: the error whose message is the string conversion of
`v`, or the TypeError of that conversion. -/
def throwNewError (v : JsVal) : JsError :=
  match jsToString v with
  | .ok message => newError message
  | .error thrown => thrown

/-- The expression `v.k`: throws on `null` and `undefined`. -/
def getProp (v : JsVal) (k : String) : Except JsError JsVal :=
  match v with
  | .undefined =>
    .error (typeError ("Cannot read properties of undefined (reading '" ++ k ++ "')"))
  | .null => .error (typeError ("Cannot read properties of null (reading '" ++ k ++ "')"))
  | v => .ok (propOf v k)

/-! ## Finding normalizer (`App.jsx`, the callback of `findingsResponse.map`) -/

/-- The callback that `fetchData` maps over the findings response: it builds the object
with the four keys `bucket_name`, `status`, `severity` and `issues`. -/
def normalizeFinding (finding : JsVal) : Except JsError JsVal := do
  let bucket_name ← getProp finding "bucket_name"
  let status ← getProp finding "status"
  let severity ← getProp finding "severity"
  let issues ← getProp finding "issues"
  pure (.obj [
    ("bucket_name", bucket_name),
    ("status", status),
    ("severity", severity.or (if status.strictEqStr "Secure" then .str "LOW" else .str "HIGH")),
    ("issues", issues.or (.arr []))])

/-- The expression `findingsResponse.map(callback)`: only an array has `map`, and the
mapping stops at the first element on which the callback throws. -/
def mapFindingsList : List JsVal → Except JsError (List JsVal)
  | [] => .ok []
  | finding :: rest =>
    match normalizeFinding finding with
    | .error e => .error e
    | .ok formatted =>
      match mapFindingsList rest with
      | .error e => .error e
      | .ok formattedRest => .ok (formatted :: formattedRest)

/-- The value of `formattedFindings` for a findings response. -/
def formatFindings (findingsResponse : JsVal) : Except JsError (List JsVal) :=
  match findingsResponse with
  | .arr items => mapFindingsList items
  | .undefined => .error (typeError "Cannot read properties of undefined (reading 'map')")
  | .null => .error (typeError "Cannot read properties of null (reading 'map')")
  | _ => .error (typeError "findingsResponse.map is not a function")

/-! ## Transport client (`services/api.js`) -/

/-- The kinds of notification of the toast library. -/
inductive ToastKind where
  | success
  | error
  | warning
  | info
  deriving DecidableEq, Repr

/-- What the code does to the outside world, in the order it does it. -/
inductive Event where
  | get (path : String)
  | post (path : String) (body : JsVal)
  | handleApiError (error : JsError)
  | toast (kind : ToastKind) (message : String)
  | onUpdate

/-- A computation that made the calls of `trace` and then returned or threw. -/
structure Traced (α : Type) where
  trace : List Event
  result : Except JsError α

/-- The message of the Timeout class. -/
def timeoutMessage : String := "The request took too long to complete. Please try again."

/-- The message of the NotFound class. -/
def notFoundMessage : String := "The requested resource was not found."

/-- The message of the ServiceUnavailable class. -/
def unavailableMessage : String :=
  "The service is currently unavailable. Please try again later."

/-- The message of the ServerError class. -/
def serverErrorMessage : String := "Server error occurred"

/-- The message of the NetworkUnreachable class. -/
def unreachableMessage : String := "Unable to reach the server. Please check your connection."

/-- The function `handleApiError(error)`. It never returns: the value is the error it
throws. -/
def handleApiError (error : JsError) : JsError :=
  if error.code == some "ECONNABORTED" || includes error.message "timeout" then
    newError timeoutMessage
  else if error.response.map (·.status) == some 404 then
    newError notFoundMessage
  else if error.response.map (·.status) == some 503 then
    newError unavailableMessage
  else
    match error.response with
    | some response =>
      let detail := optProp response.data "detail"
      if detail.truthy then throwNewError detail
      else newError serverErrorMessage
    | none =>
      if error.request then newError unreachableMessage
      else error

/-- The type of `api.get`: the response, or the error the transport rejects with. -/
abbrev GetFn := String → Except JsError Response

/-- The type of `api.post`. -/
abbrev PostFn := String → JsVal → Except JsError Response

/-- The method `securityApi.getFindings()`. -/
def getFindings (get : GetFn) : Traced JsVal :=
  match get "/findings" with
  | .ok response => ⟨[.get "/findings"], .ok response.data⟩
  | .error error => ⟨[.get "/findings", .handleApiError error], .error (handleApiError error)⟩

/-- The method `securityApi.getStats()`. -/
def getStats (get : GetFn) : Traced JsVal :=
  match get "/stats" with
  | .ok response => ⟨[.get "/stats"], .ok response.data⟩
  | .error error => ⟨[.get "/stats", .handleApiError error], .error (handleApiError error)⟩

/-- The remediation vocabulary, the array literal of `remediateBucket`. -/
def vocabulary : List String := ["enable_encryption", "block_public_access"]

/-- The filter predicate `['enable_encryption', 'block_public_access'].includes(action)`. -/
def isValidAction (action : JsVal) : Bool :=
  match action with
  | .str s => vocabulary.contains s
  | _ => false

/-- The elements of an array (no elements for any other value). -/
def arrayItems : JsVal → List JsVal
  | .arr items => items
  | _ => []

/-- The `try` block of `securityApi.remediateBucket`. -/
def remediateTry (post : PostFn) (bucketName actions : JsVal) : Traced JsVal :=
  if !bucketName.truthy || !actions.truthy || !actions.isArray
      || (arrayItems actions).length == 0 then
    ⟨[], .error (newError "Invalid remediation request parameters")⟩
  else
    let validActions := (arrayItems actions).filter isValidAction
    if validActions.length == 0 then
      ⟨[], .error (newError "No valid remediation actions specified")⟩
    else
      let body := JsVal.obj [("bucket_name", bucketName), ("actions", .arr validActions)]
      match post "/remediate" body with
      | .ok response => ⟨[.post "/remediate" body], .ok response.data⟩
      | .error error => ⟨[.post "/remediate" body], .error error⟩

/-- What `throw new Error('Invalid remediation request: ' + v)` throws: the error with the
text of `v` appended, or the TypeError of the string conversion of `v`. -/
def validationError (v : JsVal) : JsError :=
  match jsToString v with
  | .ok text => newError ("Invalid remediation request: " ++ text)
  | .error thrown => thrown

/-- The `catch` block of `securityApi.remediateBucket`, given the calls made so far. -/
def remediateCatch (trace : List Event) (error : JsError) : Traced JsVal :=
  match error.response with
  | some response =>
    if response.status == 422 then
      match getProp response.data "detail" with
      | .error thrown => ⟨trace, .error thrown⟩
      | .ok detail =>
        let msg := optProp (optIndex0 detail) "msg"
        ⟨trace, .error (validationError (msg.or (.str "Validation error")))⟩
    else ⟨trace ++ [.handleApiError error], .error (handleApiError error)⟩
  | none => ⟨trace ++ [.handleApiError error], .error (handleApiError error)⟩

/-- The method `securityApi.remediateBucket(bucketName, actions)`. -/
def remediateBucket (post : PostFn) (bucketName actions : JsVal) : Traced JsVal :=
  let attempt := remediateTry post bucketName actions
  match attempt.result with
  | .ok data => ⟨attempt.trace, .ok data⟩
  | .error error => remediateCatch attempt.trace error

/-- The condition under which both checks of `remediateBucket` pass: a truthy bucket name
(for a string: non-empty) and an array of actions of which one at least is in the
vocabulary. -/
def passesGuard (bucketName actions : JsVal) : Bool :=
  bucketName.truthy && actions.isArray && (arrayItems actions).any isValidAction

/-- The POST bodies among the calls made. -/
def postBodies : List Event → List JsVal
  | [] => []
  | .post _ body :: rest => body :: postBodies rest
  | _ :: rest => postBodies rest

/-- The errors handed to `handleApiError` among the calls made. -/
def classified : List Event → List JsError
  | [] => []
  | .handleApiError error :: rest => error :: classified rest
  | _ :: rest => classified rest

/-! ## Remediation orchestrator (`components/BucketCard.jsx`) -/

/-- The toast library, which is not part of the repository: what a call of
`toast.success`, `toast.error`, `toast.warning` or `toast.info` does (return, or throw). -/
abbrev ToastFn := ToastKind → String → Except JsError Unit

/-- The object `bucketData` that `BucketCard` builds from its `bucket` prop. -/
structure BucketData where
  bucket_name : JsVal
  status : JsVal
  severity : JsVal
  issues : JsVal

/-- The defaults of `bucketData`: `bucket?.field || fallback` for each field. -/
def bucketData (bucket : JsVal) : BucketData :=
  { bucket_name := (optProp bucket "bucket_name").or (.str "Unknown Bucket")
    status := (optProp bucket "status").or (.str "Insecure")
    severity := (optProp bucket "severity").or (.str "HIGH")
    issues := (optProp bucket "issues").or (.arr []) }

/-- The actions the body of the `forEach` callback pushes for one issue string. -/
def issueActions (issue : String) : List String :=
  (if includes (toLowerCase issue) "encryption" then ["enable_encryption"] else [])
    ++ (if includes (toLowerCase issue) "public" || includes (toLowerCase issue) "access"
        then ["block_public_access"] else [])

/-- The loop `issues.forEach(issue => ...)` over the elements of the array, pushing onto
`remediationActions`; an element that is no string has no `toLowerCase`. -/
def forEachIssue (remediationActions : List String) : List JsVal → Except JsError (List String)
  | [] => .ok remediationActions
  | .str issue :: rest => forEachIssue (remediationActions ++ issueActions issue) rest
  | .undefined :: _ =>
    .error (typeError "Cannot read properties of undefined (reading 'toLowerCase')")
  | .null :: _ => .error (typeError "Cannot read properties of null (reading 'toLowerCase')")
  | _ :: _ => .error (typeError "issue.toLowerCase is not a function")

/-- The value of `remediationActions` after the loop of `handleRemediate`, for the value
of `bucketData.issues`; only an array has `forEach`. -/
def deriveActions (issues : JsVal) : Except JsError (List String) :=
  match issues with
  | .arr items => forEachIssue [] items
  | _ => .error (typeError "bucketData.issues.forEach is not a function")

/-- The `try` block of `handleRemediate`. -/
def handleRemediateTry (post : PostFn) (toast : ToastFn) (data : BucketData) : Traced Unit :=
  match deriveActions data.issues with
  | .error thrown => ⟨[], .error thrown⟩
  | .ok remediationActions =>
    if remediationActions.length > 0 then
      let call := remediateBucket post data.bucket_name (.arr (remediationActions.map .str))
      match call.result with
      | .error thrown => ⟨call.trace, .error thrown⟩
      | .ok _ =>
        match toast .success "Bucket secured successfully" with
        | .error thrown =>
          ⟨call.trace ++ [.toast .success "Bucket secured successfully"], .error thrown⟩
        | .ok _ =>
          ⟨call.trace ++ [.toast .success "Bucket secured successfully", .onUpdate], .ok ()⟩
    else
      ⟨[.toast .warning "No remediation actions identified"],
        toast .warning "No remediation actions identified"⟩

/-- The click handler `handleRemediate` of the card of `bucket`. -/
def handleRemediate (post : PostFn) (toast : ToastFn) (bucket : JsVal) : Traced Unit :=
  let attempt := handleRemediateTry post toast (bucketData bucket)
  match attempt.result with
  | .ok _ => attempt
  | .error error =>
    let message := if error.message != "" then error.message else "Failed to secure bucket"
    ⟨attempt.trace ++ [.toast .error message], toast .error message⟩

/-- A finding as `BucketCard.propTypes` types it: three strings and an array of issue
strings. -/
structure Finding where
  bucket_name : String
  status : String
  severity : String
  issues : List String

/-- The finding as the object the normalizer publishes. -/
def Finding.toJs (f : Finding) : JsVal :=
  .obj [("bucket_name", .str f.bucket_name), ("status", .str f.status),
    ("severity", .str f.severity), ("issues", .arr (f.issues.map .str))]

/-! ## Sync controller (`App.jsx`, `components/Header.jsx`) -/

/-- The canonical state: the five `useState` cells of `App`. -/
structure AppState where
  buckets : List JsVal
  stats : JsVal
  loading : Bool
  error : Option String
  lastChecked : Option Nat

/-- The initial values of the five cells. -/
def AppState.initial : AppState :=
  { buckets := [], stats := .null, loading := true, error := none, lastChecked := none }

/-- The first argument `fetchData` is called with: nothing (the effect, the interval
callback and `onUpdate()`), a number (the retry timer), or the click event object that the
refresh button of `Header` hands to its `onClick` handler. -/
inductive RetryArg where
  | absent
  | count (n : Nat)
  | clickEvent
  deriving DecidableEq, Repr

/-- The default parameter `retryAttempt = 0`: only a missing argument takes the default. -/
def RetryArg.withDefault : RetryArg → RetryArg
  | .absent => .count 0
  | a => a

/-- The comparison `retryAttempt < 3`: an object converts to NaN, and NaN is less than
nothing. -/
def RetryArg.lessThan3 : RetryArg → Bool
  | .count n => n < 3
  | .absent => false
  | .clickEvent => false

/-- The number `n` of a numeric argument (only used under `retryAttempt < 3`). -/
def RetryArg.number : RetryArg → Nat
  | .count n => n
  | _ => 0

/-- What one call of `fetchData` meets: the transport, which of two failing fetches rejects
first, the toast library, and the clock. -/
structure World where
  get : GetFn
  statsRejectsFirst : Bool
  toast : ToastFn
  now : Nat

/-- The outcome of `Promise.all([getFindings(), getStats()])`: both values, or the reason of
the promise that rejects first. -/
def promiseAll (findings stats : Except JsError JsVal) (statsRejectsFirst : Bool) :
    Except JsError (JsVal × JsVal) :=
  match findings, stats with
  | .ok f, .ok s => .ok (f, s)
  | .error e, .ok _ => .error e
  | .ok _, .error e => .error e
  | .error ef, .error es => .error (if statsRejectsFirst then es else ef)

/-- What one call of `fetchData` leaves behind: the state, the calls made, and the timer
it set (delay in milliseconds and the argument of the delayed call), if any. -/
structure FetchStep where
  state : AppState
  trace : List Event
  timer : Option (Nat × RetryArg)

/-- The `try` block of `fetchData` after `setLoading(true)`: the state it leaves, the
calls made, and whether it completed or threw. -/
def fetchTry (w : World) (st : AppState) : AppState × Traced Unit :=
  let findings := getFindings w.get
  let stats := getStats w.get
  let trace := findings.trace ++ stats.trace
  match promiseAll findings.result stats.result w.statsRejectsFirst with
  | .error thrown => (st, ⟨trace, .error thrown⟩)
  | .ok (findingsResponse, statsResponse) =>
    match formatFindings findingsResponse with
    | .error thrown => (st, ⟨trace, .error thrown⟩)
    | .ok formattedFindings =>
      let published := { st with
        buckets := formattedFindings, stats := statsResponse,
        lastChecked := some w.now, error := none }
      if formattedFindings.length == 0 then
        (published, ⟨trace ++ [.toast .info "No buckets found in your AWS account"],
          w.toast .info "No buckets found in your AWS account"⟩)
      else (published, ⟨trace, .ok ()⟩)

/-- The function `fetchData(retryAttempt = 0)`. -/
def fetchData (w : World) (arg : RetryArg) (st : AppState) : FetchStep :=
  let retryAttempt := arg.withDefault
  let attempt := fetchTry w { st with loading := true }
  match attempt.2.result with
  | .ok _ => { state := { attempt.1 with loading := false }, trace := attempt.2.trace, timer := none }
  | .error error =>
    let message :=
      if error.message != "" then error.message else "Failed to fetch bucket information"
    { state := { attempt.1 with error := some message, loading := false }
      trace := attempt.2.trace
      timer :=
        if retryAttempt.lessThan3 then
          some (1000 * (retryAttempt.number + 1), .count (retryAttempt.number + 1))
        else none }

/-- The record of one sync cycle: how many times `fetchData` ran, the delays of the timers
it set, in order, the state at the end, and whether the simulation stopped with a timer still
pending. -/
structure CycleLog where
  attempts : Nat
  delays : List Nat
  final : AppState
  pending : Bool

/-- One sync cycle: the triggering call of `fetchData` and the calls its retry timers make,
the `k`-th call of the cycle meeting `worlds k`. At most `fuel` calls are simulated. -/
def runCycle : Nat → (Nat → World) → Nat → RetryArg → AppState → CycleLog
  | 0, _, _, _, st => { attempts := 0, delays := [], final := st, pending := true }
  | fuel + 1, worlds, k, arg, st =>
    let step := fetchData (worlds k) arg st
    match step.timer with
    | none => { attempts := 1, delays := [], final := step.state, pending := false }
    | some (delay, next) =>
      let rest := runCycle fuel worlds (k + 1) next step.state
      { attempts := rest.attempts + 1, delays := delay :: rest.delays,
        final := rest.final, pending := rest.pending }

/-- Whether a computation threw. -/
def threw {α : Type} : Except JsError α → Bool
  | .error _ => true
  | .ok _ => false

/-- A fetch attempt fails at the transport: one at least of the two requests is rejected. -/
def fetchFails (w : World) : Bool :=
  threw (w.get "/findings") || threw (w.get "/stats")

/-- The error the transport rejects with when the server cannot be reached. -/
def networkError : JsError :=
  { name := "AxiosError", message := "Network Error", code := some "ERR_NETWORK",
    response := none, request := true }

/-- A world in which the server cannot be reached. -/
def offlineWorld : World :=
  { get := fun _ => .error networkError
    statsRejectsFirst := false
    toast := fun _ _ => .ok ()
    now := 0 }

/-- The error the transport rejects with for a response of the given status and body. -/
def httpError (status : Nat) (data : JsVal) : JsError :=
  { name := "AxiosError", message := "Request failed with status code " ++ toString status,
    code := some "ERR_BAD_RESPONSE", response := some ⟨status, data⟩, request := true }

/-- The value of `error.response.data.detail?.[0]?.msg` for a response body that is neither
`null` nor `undefined`. -/
def firstDetailMsg (data : JsVal) : JsVal :=
  optProp (optIndex0 (propOf data "detail")) "msg"

/-- The body `remediateBucket` posts for a bucket name and an action array that pass its
checks. -/
def remediationBody (bucketName actions : JsVal) : JsVal :=
  .obj [("bucket_name", bucketName), ("actions", .arr ((arrayItems actions).filter isValidAction))]

/-- A server that answers every POST with the given status and body. -/
def rejectingPost (status : Nat) (data : JsVal) : PostFn :=
  fun _ _ => .error (httpError status data)

/-- A server that accepts every POST. -/
def acceptingPost : PostFn :=
  fun _ _ => .ok ⟨200, .obj [("status", .str "success")]⟩

/-- A toast library whose calls return. -/
def quietToast : ToastFn := fun _ _ => .ok ()

/-- A world whose server answers the two GET requests with the given bodies. -/
def servingWorld (findings stats : JsVal) : World :=
  { get := fun path => if path = "/findings" then .ok ⟨200, findings⟩ else .ok ⟨200, stats⟩
    statsRejectsFirst := false
    toast := fun _ _ => .ok ()
    now := 0 }

/-- A world whose server answers `/findings` with the given body and rejects `/stats` with a
503. -/
def statsDownWorld (findings : JsVal) : World :=
  { get := fun path =>
      if path = "/findings" then .ok ⟨200, findings⟩ else .error (httpError 503 .null)
    statsRejectsFirst := false
    toast := fun _ _ => .ok ()
    now := 0 }

/-- The `toast` function of the imported library `react-hot-toast`, which is not part of the
repository: its public interface has the methods `success` and `error` (and `loading`,
`custom`, `promise`, `dismiss`, `remove`) and neither `info` nor `warning`, so a call of one
of those two throws. -/
def reactHotToast : ToastFn :=
  fun kind _ =>
    match kind with
    | .info => .error (typeError "toast.info is not a function")
    | .warning => .error (typeError "toast.warning is not a function")
    | _ => .ok ()

/-- The text of the notice `fetchData` emits for an empty list of findings. -/
def noBucketsNotice : String := "No buckets found in your AWS account"

/-- A state published by an earlier successful sync. -/
def publishedState : AppState :=
  { buckets := [.obj [("bucket_name", .str "logs"), ("status", .str "Secure"),
      ("severity", .str "LOW"), ("issues", .arr [])]]
    stats := .obj [("security_score", .num "100"), ("secure_buckets", .num "1"),
      ("total_buckets", .num "1")]
    loading := false
    error := none
    lastChecked := some 7 }

/-- The argument of the call the periodic timer makes: `fetchData()`. -/
def timerTrigger : RetryArg := .absent

/-- The argument of the call the refresh button makes: `onClick` is `fetchData` itself, so
the click event is the first argument. -/
def refreshTrigger : RetryArg := .clickEvent

/-! ## Stats tiles (`components/SecurityStats.jsx`) -/

/-- The engine's numeric operators on values: `a - b`, `a > b` and `a >= b` convert their
operands to doubles first, and throw when an operand cannot be converted. The embedding
leaves them abstract. -/
structure Arith where
  minus : JsVal → JsVal → Except JsError JsVal
  greaterThan : JsVal → JsVal → Except JsError Bool
  atLeast : JsVal → JsVal → Except JsError Bool

/-- A destructuring default `field = fallback` whose fallback is a literal: the fallback is
taken for a missing (`undefined`) field only, so `null` and every other value stay. -/
def orDefault (v fallback : JsVal) : JsVal :=
  match v with
  | .undefined => fallback
  | v => v

/-- The four bindings of the destructuring in `SecurityStats`. -/
structure StatValues where
  security_score : JsVal
  secure_buckets : JsVal
  total_buckets : JsVal
  insecure_buckets : JsVal

/-- The destructuring `const (security_score = 0, secure_buckets = 0, total_buckets = 0,
insecure_buckets = total_buckets - secure_buckets) = stats`, the properties read in that
order; the subtraction is evaluated for a missing `insecure_buckets` only. -/
def destructureStats (ar : Arith) (stats : JsVal) : Except JsError StatValues :=
  let security_score := orDefault (propOf stats "security_score") (.num "0")
  let secure_buckets := orDefault (propOf stats "secure_buckets") (.num "0")
  let total_buckets := orDefault (propOf stats "total_buckets") (.num "0")
  match propOf stats "insecure_buckets" with
  | .undefined =>
    match ar.minus total_buckets secure_buckets with
    | .error thrown => .error thrown
    | .ok difference =>
      .ok { security_score := security_score, secure_buckets := secure_buckets,
            total_buckets := total_buckets, insecure_buckets := difference }
  | supplied =>
    .ok { security_score := security_score, secure_buckets := secure_buckets,
          total_buckets := total_buckets, insecure_buckets := supplied }

/-- What the four tiles are given: the text of the score tile, whether the score counts as
good, the values of the three bucket tiles, and the description of the last tile. -/
structure StatCards where
  scoreText : String
  scoreGood : Bool
  total_buckets : JsVal
  secure_buckets : JsVal
  insecure_buckets : JsVal
  description : String

/-- The component `SecurityStats`: nothing for a falsy `stats`; else the destructuring and
the four tiles, built in the order of the array literal: the template literal of the score
tile converts the score to a string, then come the comparison of the score with 70 and the
comparison of `insecure_buckets` with 0. -/
def SecurityStats (ar : Arith) (stats : JsVal) : Except JsError (Option StatCards) :=
  if !stats.truthy then .ok none
  else
    match destructureStats ar stats with
    | .error thrown => .error thrown
    | .ok values =>
      match jsToString values.security_score with
      | .error thrown => .error thrown
      | .ok text =>
        match ar.atLeast values.security_score (.num "70") with
        | .error thrown => .error thrown
        | .ok good =>
          match ar.greaterThan values.insecure_buckets (.num "0") with
          | .error thrown => .error thrown
          | .ok attention =>
            .ok (some
              { scoreText := text ++ "%"
                scoreGood := good
                total_buckets := values.total_buckets
                secure_buckets := values.secure_buckets
                insecure_buckets := values.insecure_buckets
                description :=
                  if attention then "Requires attention" else "All buckets secure" })

/-- A fragment of the engine's arithmetic: its answers on the operands of the examples
below (`10 - 4`, `4 - 3`, `5 - 7`, and the comparisons of their scores and differences). On
any other operands this fragment throws, which is not said of the engine. -/
def exampleArith : Arith :=
  { minus := fun a b =>
      match a, b with
      | .num "10", .num "4" => .ok (.num "6")
      | .num "4", .num "3" => .ok (.num "1")
      | .num "5", .num "7" => .ok (.num "-2")
      | _, _ => .error (typeError "operands outside the examples")
    greaterThan := fun a b =>
      match a, b with
      | .num "9", .num "0" => .ok true
      | .num "1", .num "0" => .ok true
      | .num "-2", .num "0" => .ok false
      | .null, .num "0" => .ok false
      | _, _ => .error (typeError "operands outside the examples")
    atLeast := fun a b =>
      match a, b with
      | .num "40", .num "70" => .ok false
      | .num "75", .num "70" => .ok true
      | .num "100", .num "70" => .ok true
      | _, _ => .error (typeError "operands outside the examples") }

/-! ## Properties of the finding normalizer -/

/-- `a || b` is truthy when `b` is. -/
theorem JsVal.or_truthy (a b : JsVal) (hb : b.truthy = true) : (a.or b).truthy = true := by
  unfold JsVal.or
  by_cases ha : a.truthy = true <;> simp [ha, hb]

/-- `a || b` is `a` when `a` is truthy. -/
theorem JsVal.or_of_truthy (a b : JsVal) (ha : a.truthy = true) : a.or b = a := by
  simp [JsVal.or, ha]

/-- A property read of a value that is neither `null` nor `undefined` does not throw. -/
theorem getProp_ok (v : JsVal) (k : String) (h : v.nullish = false) :
    getProp v k = .ok (propOf v k) := by
  cases v <;> simp [JsVal.nullish] at h <;> rfl

/-- The normalizer on a raw finding that is neither `null` nor `undefined`: the object of
the four keys. -/
theorem normalizeFinding_ok (finding : JsVal) (h : finding.nullish = false) :
    normalizeFinding finding = .ok (.obj [
      ("bucket_name", propOf finding "bucket_name"),
      ("status", propOf finding "status"),
      ("severity", (propOf finding "severity").or
        (if (propOf finding "status").strictEqStr "Secure" then .str "LOW" else .str "HIGH")),
      ("issues", (propOf finding "issues").or (.arr []))]) := by
  simp [normalizeFinding, getProp_ok _ _ h, bind, Except.bind, pure, Except.pure]

/-- An object of the four keys whose severity and issues are truthy is a fixed point of the
normalizer. -/
theorem normalizeFinding_fixed (name status severity issues : JsVal)
    (hsev : severity.truthy = true) (hiss : issues.truthy = true) :
    normalizeFinding (.obj [("bucket_name", name), ("status", status),
        ("severity", severity), ("issues", issues)])
      = .ok (.obj [("bucket_name", name), ("status", status),
        ("severity", severity), ("issues", issues)]) := by
  rw [normalizeFinding_ok _ (by rfl)]
  simp [propOf, lookup, JsVal.or_of_truthy _ _ hsev, JsVal.or_of_truthy _ _ hiss]

/-- C1: for every raw finding (any value that is not `null` or `undefined`) the normalizer
returns a finding whose severity is the raw severity when one is supplied (truthy: for a
string, non-empty), and otherwise is LOW when the raw status is exactly "Secure" and HIGH for
every other status, a missing status included. -/
theorem normalizeFinding_severity (finding : JsVal) (h : finding.nullish = false) :
    ∃ out, normalizeFinding finding = .ok out ∧
      propOf out "severity" =
        if (propOf finding "severity").truthy then propOf finding "severity"
        else if (propOf finding "status").strictEqStr "Secure" then .str "LOW"
        else .str "HIGH" := by
  refine ⟨_, normalizeFinding_ok finding h, ?_⟩
  simp [propOf, lookup, JsVal.or]

/-- C1 at the two findings the design document names: a Secure finding without severity
gets LOW, an Insecure one HIGH; a supplied severity is kept and an empty one is replaced. -/
theorem normalizeFinding_severity_witness :
    (∃ out, normalizeFinding (.obj [("status", .str "Secure")]) = .ok out
        ∧ propOf out "severity" = .str "LOW")
    ∧ (∃ out, normalizeFinding (.obj [("status", .str "Insecure")]) = .ok out
        ∧ propOf out "severity" = .str "HIGH")
    ∧ (∃ out, normalizeFinding (.obj [("status", .str "Secure"), ("severity", .str "MEDIUM")])
          = .ok out ∧ propOf out "severity" = .str "MEDIUM")
    ∧ (∃ out, normalizeFinding (.obj [("severity", .str "")]) = .ok out
        ∧ propOf out "severity" = .str "HIGH") := by
  refine ⟨?_, ?_, ?_, ?_⟩
  · obtain ⟨out, h1, h2⟩ := normalizeFinding_severity (.obj [("status", .str "Secure")]) rfl
    exact ⟨out, h1, by rw [h2]; rfl⟩
  · obtain ⟨out, h1, h2⟩ := normalizeFinding_severity (.obj [("status", .str "Insecure")]) rfl
    exact ⟨out, h1, by rw [h2]; rfl⟩
  · obtain ⟨out, h1, h2⟩ := normalizeFinding_severity
      (.obj [("status", .str "Secure"), ("severity", .str "MEDIUM")]) rfl
    exact ⟨out, h1, by rw [h2]; rfl⟩
  · obtain ⟨out, h1, h2⟩ := normalizeFinding_severity (.obj [("severity", .str "")]) rfl
    exact ⟨out, h1, by rw [h2]; rfl⟩

/-- C2: the normalizer is idempotent. For every raw finding shape (any value that is not
`null` or `undefined`, whatever fields it has or lacks) the normalizer returns a finding,
and normalizing that finding returns it unchanged, field for field. -/
theorem normalizeFinding_idempotent (x : JsVal) (h : x.nullish = false) :
    ∃ y, normalizeFinding x = .ok y ∧ normalizeFinding y = .ok y := by
  have hsev : ((propOf x "severity").or
      (if (propOf x "status").strictEqStr "Secure" then .str "LOW" else .str "HIGH")).truthy
      = true := by
    apply JsVal.or_truthy
    by_cases hs : (propOf x "status").strictEqStr "Secure" = true <;> simp [hs] <;> rfl
  have hiss : ((propOf x "issues").or (.arr [])).truthy = true :=
    JsVal.or_truthy _ _ rfl
  exact ⟨_, normalizeFinding_ok x h, normalizeFinding_fixed _ _ _ _ hsev hiss⟩

/-- C2 at a raw finding with a missing severity, a missing issue list and an extra
field. -/
theorem normalizeFinding_idempotent_witness :
    ∃ y, normalizeFinding (.obj [("bucket_name", .str "logs"), ("status", .str "Secure"),
        ("region", .str "eu-west-1")]) = .ok y
      ∧ normalizeFinding y = .ok y :=
  normalizeFinding_idempotent _ rfl

/-! ## Properties of the remediation orchestrator -/

/-- Over an array of strings the loop of `handleRemediate` does not throw: it appends the
actions of each issue, in issue order. -/
theorem forEachIssue_strings (acc : List String) (issues : List String) :
    forEachIssue acc (issues.map .str) = .ok (acc ++ issues.flatMap issueActions) := by
  induction issues generalizing acc with
  | nil => simp [forEachIssue]
  | cons issue rest ih =>
    simp [forEachIssue, ih, List.flatMap_cons, List.append_assoc]

/-- The issue list a card reads from a published finding is the finding's own. -/
theorem bucketData_issues (f : Finding) :
    (bucketData f.toJs).issues = .arr (f.issues.map .str) := by
  simp [bucketData, Finding.toJs, optProp, propOf, lookup, JsVal.or, JsVal.truthy]

/-- The action list `handleRemediate` derives for a finding. -/
theorem deriveActions_finding (f : Finding) :
    deriveActions (bucketData f.toJs).issues = .ok (f.issues.flatMap issueActions) := by
  rw [bucketData_issues]
  simp [deriveActions, forEachIssue_strings]

/-- What one issue contributes: `enable_encryption` exactly when it contains "encryption". -/
theorem mem_issueActions_encryption (issue : String) :
    "enable_encryption" ∈ issueActions issue
      ↔ includes (toLowerCase issue) "encryption" = true := by
  unfold issueActions
  by_cases h1 : includes (toLowerCase issue) "encryption" = true <;>
    by_cases h2 : (includes (toLowerCase issue) "public"
      || includes (toLowerCase issue) "access") = true <;>
    simp [h1, h2]

/-- What one issue contributes: `block_public_access` exactly when it contains "public" or
"access". -/
theorem mem_issueActions_public (issue : String) :
    "block_public_access" ∈ issueActions issue
      ↔ (includes (toLowerCase issue) "public" = true
          ∨ includes (toLowerCase issue) "access" = true) := by
  unfold issueActions
  by_cases h1 : includes (toLowerCase issue) "encryption" = true <;>
    by_cases h2 : includes (toLowerCase issue) "public" = true <;>
    by_cases h3 : includes (toLowerCase issue) "access" = true <;>
    simp [h1, h2, h3]

/-- One issue contributes nothing outside the vocabulary. -/
theorem issueActions_vocabulary (issue : String) (a : String) (ha : a ∈ issueActions issue) :
    a = "enable_encryption" ∨ a = "block_public_access" := by
  unfold issueActions at ha
  by_cases h1 : includes (toLowerCase issue) "encryption" = true <;>
    by_cases h2 : (includes (toLowerCase issue) "public"
      || includes (toLowerCase issue) "access") = true <;>
    simp [h1, h2] at ha <;> simp [ha]

/-- C3: for every finding the list of remediation actions `handleRemediate` derives contains
`enable_encryption` if and only if some issue string contains "encryption" after lower-casing,
contains `block_public_access` if and only if some issue string contains "public" or "access"
after lower-casing, and contains nothing else; with the three lists the design document
names. -/
theorem deriveActions_spec :
    (∀ f : Finding, ∃ actions, deriveActions (bucketData f.toJs).issues = .ok actions
      ∧ ("enable_encryption" ∈ actions
          ↔ ∃ issue ∈ f.issues, includes (toLowerCase issue) "encryption" = true)
      ∧ ("block_public_access" ∈ actions
          ↔ ∃ issue ∈ f.issues, includes (toLowerCase issue) "public" = true
              ∨ includes (toLowerCase issue) "access" = true)
      ∧ ∀ a ∈ actions, a = "enable_encryption" ∨ a = "block_public_access")
    ∧ deriveActions (.arr [.str "S3 encryption disabled"]) = .ok ["enable_encryption"]
    ∧ deriveActions (.arr [.str "Bucket is public", .str "no encryption"])
        = .ok ["block_public_access", "enable_encryption"]
    ∧ deriveActions (.arr [.str "unrelated issue"]) = .ok []
    ∧ deriveActions (.arr [.str "S3 ENCRYPTION disabled", .str "Public ACL"])
        = .ok ["enable_encryption", "block_public_access"] := by
  refine ⟨?_, rfl, rfl, rfl, rfl⟩
  intro f
  refine ⟨_, deriveActions_finding f, ?_, ?_, ?_⟩
  · simp only [List.mem_flatMap, mem_issueActions_encryption]
  · simp only [List.mem_flatMap, mem_issueActions_public]
  · intro a ha
    obtain ⟨issue, _, hmem⟩ := List.mem_flatMap.mp ha
    exact issueActions_vocabulary issue a hmem

/-! ## Properties of `remediateBucket` -/

/-- The two local validation errors pass through `handleApiError` unchanged. -/
theorem handleApiError_local :
    handleApiError (newError "Invalid remediation request parameters")
        = newError "Invalid remediation request parameters"
    ∧ handleApiError (newError "No valid remediation actions specified")
        = newError "No valid remediation actions specified" :=
  ⟨rfl, rfl⟩

/-- A filtered list is empty exactly when no element passes. -/
theorem filter_length_zero (items : List JsVal) :
    ((items.filter isValidAction).length == 0) = !items.any isValidAction := by
  induction items with
  | nil => rfl
  | cons x rest ih =>
    by_cases hx : isValidAction x = true
    · simp [List.filter_cons, hx]
    · simp only [Bool.not_eq_true] at hx
      simp [List.filter_cons, hx] at ih ⊢
      simpa using ih

/-- When the guard passes, the `try` block posts the body with the filtered actions. -/
theorem remediateTry_pass (post : PostFn) (bucketName actions : JsVal)
    (h : passesGuard bucketName actions = true) :
    remediateTry post bucketName actions =
      match post "/remediate" (.obj [("bucket_name", bucketName),
          ("actions", .arr ((arrayItems actions).filter isValidAction))]) with
      | .ok response => ⟨[.post "/remediate" (.obj [("bucket_name", bucketName),
          ("actions", .arr ((arrayItems actions).filter isValidAction))])], .ok response.data⟩
      | .error error => ⟨[.post "/remediate" (.obj [("bucket_name", bucketName),
          ("actions", .arr ((arrayItems actions).filter isValidAction))])], .error error⟩ := by
  simp only [passesGuard, Bool.and_eq_true] at h
  obtain ⟨⟨hb, ha⟩, hany⟩ := h
  cases actions <;> simp [JsVal.isArray] at ha
  rename_i items
  have hne : items ≠ [] := by
    intro hnil
    simp [arrayItems, hnil] at hany
  have hfil : ((items.filter isValidAction).length == 0) = false := by
    rw [filter_length_zero]
    simpa [arrayItems] using hany
  have ht : (JsVal.arr items).truthy = true := rfl
  simp [remediateTry, hb, ht, JsVal.isArray, arrayItems, hfil, hne]

/-- When the guard fails, the `try` block throws one of the two local validation errors
before any call. -/
theorem remediateTry_fail (post : PostFn) (bucketName actions : JsVal)
    (h : passesGuard bucketName actions = false) :
    remediateTry post bucketName actions
        = ⟨[], .error (newError "Invalid remediation request parameters")⟩
    ∨ remediateTry post bucketName actions
        = ⟨[], .error (newError "No valid remediation actions specified")⟩ := by
  unfold remediateTry
  by_cases hg : (!bucketName.truthy || !actions.truthy || !actions.isArray
      || (arrayItems actions).length == 0) = true
  · left
    simp only [hg, if_true]
  · right
    simp only [hg]
    simp only [Bool.or_eq_true, Bool.not_eq_true', not_or, Bool.not_eq_false, beq_iff_eq] at hg
    obtain ⟨⟨⟨hb, _⟩, ha⟩, _⟩ := hg
    have hany : (arrayItems actions).any isValidAction = false := by
      simpa [passesGuard, hb, ha] using h
    have hfil : ((List.filter isValidAction (arrayItems actions)).length == 0) = true := by
      rw [filter_length_zero, hany]; rfl
    simp [hfil]

/-- The `catch` block of `remediateBucket` keeps the calls made and adds at most the call
of `handleApiError`. -/
theorem remediateCatch_trace (trace : List Event) (error : JsError) :
    (remediateCatch trace error).trace = trace
    ∨ (remediateCatch trace error).trace = trace ++ [.handleApiError error] := by
  unfold remediateCatch
  cases hr : error.response with
  | none => right; rfl
  | some response =>
    by_cases h422 : (response.status == 422) = true
    · left
      simp only [h422, if_true]
      cases getProp response.data "detail" <;> rfl
    · right
      simp [h422]

/-- When the guard fails, `remediateBucket` makes no network call and the caller gets the
local validation error itself. -/
theorem remediateBucket_fail (post : PostFn) (bucketName actions : JsVal)
    (h : passesGuard bucketName actions = false) :
    ∃ e, (e = newError "Invalid remediation request parameters"
          ∨ e = newError "No valid remediation actions specified")
      ∧ remediateBucket post bucketName actions = ⟨[.handleApiError e], .error e⟩ := by
  rcases remediateTry_fail post bucketName actions h with h1 | h1
  · refine ⟨_, Or.inl rfl, ?_⟩
    simp only [remediateBucket, h1]
    simp [remediateCatch, newError, handleApiError_local.1]
    exact handleApiError_local.1
  · refine ⟨_, Or.inr rfl, ?_⟩
    simp only [remediateBucket, h1]
    simp [remediateCatch, newError, handleApiError_local.2]
    exact handleApiError_local.2

/-- When the guard passes, `remediateBucket` posts once, the body carrying the bucket name
and the filtered actions, and makes no other network call. -/
theorem remediateBucket_pass (post : PostFn) (bucketName actions : JsVal)
    (h : passesGuard bucketName actions = true) :
    ∃ rest, (remediateBucket post bucketName actions).trace
        = .post "/remediate" (.obj [("bucket_name", bucketName),
            ("actions", .arr ((arrayItems actions).filter isValidAction))]) :: rest
      ∧ (rest = [] ∨ ∃ e, rest = [.handleApiError e]) := by
  simp only [remediateBucket, remediateTry_pass post bucketName actions h]
  cases hp : post "/remediate" (.obj [("bucket_name", bucketName),
      ("actions", .arr ((arrayItems actions).filter isValidAction))]) with
  | ok response => exact ⟨[], rfl, Or.inl rfl⟩
  | error error =>
    simp only []
    rcases remediateCatch_trace [.post "/remediate" (.obj [("bucket_name", bucketName),
      ("actions", .arr ((arrayItems actions).filter isValidAction))])] error with ht | ht
    · exact ⟨[], ht, Or.inl rfl⟩
    · exact ⟨[.handleApiError error], ht, Or.inr ⟨error, rfl⟩⟩

/-- The guard on a string bucket name and an array of strings. -/
theorem passesGuard_strings (bucketName : String) (actions : List String) :
    passesGuard (.str bucketName) (.arr (actions.map .str)) = true
      ↔ bucketName ≠ "" ∧ ∃ a ∈ actions, a ∈ vocabulary := by
  simp [passesGuard, JsVal.truthy, JsVal.isArray, arrayItems, isValidAction, List.any_map,
    List.any_eq_true]

/-- The vocabulary filter on an array of strings. -/
theorem filter_valid_strings (actions : List String) :
    (actions.map JsVal.str).filter isValidAction
      = (actions.filter fun a => vocabulary.contains a).map JsVal.str := by
  rw [List.filter_map]
  rfl

/-- C4: `remediateBucket(bucketName, actions)` issues the POST to `/remediate` exactly when
`bucketName` is non-empty and at least one element of `actions` belongs to the vocabulary;
the body then carries `bucketName` and the input actions filtered to the vocabulary in their
original order, and no other network call is made. In every other case no call is made and
the caller gets one of the two local validation errors, which `handleApiError` rethrows
unchanged. -/
theorem remediateBucket_gate (post : PostFn) (bucketName : String) (actions : List String) :
    ((bucketName ≠ "" ∧ ∃ a ∈ actions, a ∈ vocabulary) →
      ∃ rest, (remediateBucket post (.str bucketName) (.arr (actions.map .str))).trace
          = .post "/remediate" (.obj [("bucket_name", .str bucketName),
              ("actions", .arr ((actions.filter fun a => vocabulary.contains a).map .str))])
            :: rest
        ∧ (rest = [] ∨ ∃ e, rest = [.handleApiError e]))
    ∧ (¬ (bucketName ≠ "" ∧ ∃ a ∈ actions, a ∈ vocabulary) →
      ∃ e, (e = newError "Invalid remediation request parameters"
            ∨ e = newError "No valid remediation actions specified")
        ∧ handleApiError e = e
        ∧ remediateBucket post (.str bucketName) (.arr (actions.map .str))
            = ⟨[.handleApiError e], .error e⟩) := by
  constructor
  · intro h
    have hg := (passesGuard_strings bucketName actions).mpr h
    obtain ⟨rest, h1, h2⟩ := remediateBucket_pass post _ _ hg
    refine ⟨rest, ?_, h2⟩
    rw [h1]
    simp only [arrayItems, filter_valid_strings]
  · intro h
    have hg : passesGuard (.str bucketName) (.arr (actions.map .str)) = false := by
      rw [← Bool.not_eq_true, passesGuard_strings]
      exact h
    obtain ⟨e, he, hr⟩ := remediateBucket_fail post _ _ hg
    refine ⟨e, he, ?_, hr⟩
    rcases he with he | he
    · rw [he]; exact handleApiError_local.1
    · rw [he]; exact handleApiError_local.2

/-- C4 at concrete calls: an unrecognized action is dropped and the rest posted in order; an
empty bucket name, an empty action list and a list of unrecognized actions only are refused
locally, with no call to the server. -/
theorem remediateBucket_gate_witness :
    (remediateBucket acceptingPost (.str "logs")
        (.arr [.str "block_public_access", .str "rotate_keys", .str "enable_encryption"])).trace
      = [.post "/remediate" (.obj [("bucket_name", .str "logs"),
          ("actions", .arr [.str "block_public_access", .str "enable_encryption"])])]
    ∧ remediateBucket acceptingPost (.str "") (.arr [.str "enable_encryption"])
      = ⟨[.handleApiError (newError "Invalid remediation request parameters")],
          .error (newError "Invalid remediation request parameters")⟩
    ∧ remediateBucket acceptingPost (.str "logs") (.arr [])
      = ⟨[.handleApiError (newError "Invalid remediation request parameters")],
          .error (newError "Invalid remediation request parameters")⟩
    ∧ remediateBucket acceptingPost (.str "logs") (.arr [.str "rotate_keys"])
      = ⟨[.handleApiError (newError "No valid remediation actions specified")],
          .error (newError "No valid remediation actions specified")⟩ := by
  refine ⟨?_, rfl, rfl, rfl⟩
  obtain ⟨rest, h1, _⟩ := (remediateBucket_gate acceptingPost "logs"
    ["block_public_access", "rotate_keys", "enable_encryption"]).1
    ⟨by decide, "enable_encryption", by decide, by decide⟩
  rfl

/-! ## Properties of the sync controller -/

/-- A failed fetch makes the `try` block of `fetchData` throw. -/
theorem fetchTry_threw (w : World) (st : AppState) (h : fetchFails w = true) :
    threw (fetchTry w st).2.result = true := by
  unfold fetchFails at h
  unfold fetchTry getFindings getStats
  cases hf : w.get "/findings" <;> cases hs : w.get "/stats" <;>
    simp [hf, hs, threw] at h ⊢ <;> simp [promiseAll, threw]

/-- After a failed fetch `fetchData` sets the retry timer exactly when `retryAttempt < 3`,
with delay `1000 * (retryAttempt + 1)` and the next attempt number. -/
theorem fetchData_timer_of_fail (w : World) (arg : RetryArg) (st : AppState)
    (h : fetchFails w = true) :
    (fetchData w arg st).timer =
      if arg.withDefault.lessThan3 then
        some (1000 * (arg.withDefault.number + 1), .count (arg.withDefault.number + 1))
      else none := by
  have ht := fetchTry_threw w { st with loading := true } h
  cases hr : (fetchTry w { st with loading := true }).2.result with
  | ok v => simp [hr, threw] at ht
  | error e => simp [fetchData, hr]

/-- One step of a failing cycle below the retry ceiling: the timer is set and the cycle
goes on with the next attempt number. -/
theorem runCycle_retry (fuel : Nat) (worlds : Nat → World) (k n : Nat) (arg : RetryArg)
    (st : AppState) (h : fetchFails (worlds k) = true) (harg : arg.withDefault = .count n)
    (hn : n < 3) :
    runCycle (fuel + 1) worlds k arg st =
      { attempts := (runCycle fuel worlds (k + 1) (.count (n + 1))
            (fetchData (worlds k) arg st).state).attempts + 1
        delays := 1000 * (n + 1) :: (runCycle fuel worlds (k + 1) (.count (n + 1))
            (fetchData (worlds k) arg st).state).delays
        final := (runCycle fuel worlds (k + 1) (.count (n + 1))
            (fetchData (worlds k) arg st).state).final
        pending := (runCycle fuel worlds (k + 1) (.count (n + 1))
            (fetchData (worlds k) arg st).state).pending } := by
  have ht := fetchData_timer_of_fail (worlds k) arg st h
  simp only [harg, RetryArg.lessThan3, RetryArg.number, decide_eq_true hn, if_true] at ht
  simp only [runCycle, ht]

/-- The step of a failing cycle at the retry ceiling: no timer, the cycle ends. -/
theorem runCycle_stop (fuel : Nat) (worlds : Nat → World) (k n : Nat) (arg : RetryArg)
    (st : AppState) (h : fetchFails (worlds k) = true) (harg : arg.withDefault = .count n)
    (hn : ¬ n < 3) :
    runCycle (fuel + 1) worlds k arg st =
      { attempts := 1, delays := [], final := (fetchData (worlds k) arg st).state,
        pending := false } := by
  have ht := fetchData_timer_of_fail (worlds k) arg st h
  simp only [harg, RetryArg.lessThan3, RetryArg.number, decide_eq_false hn] at ht
  simp only [runCycle, ht]
  rfl

/-- C5: a sync cycle started with attempt counter 0 in which every fetch attempt fails
schedules exactly three retries, with delays 1000 ms, 2000 ms and 3000 ms in that order, runs
`fetchData` exactly four times, and the fourth failure sets no timer. Four steps of
simulation are enough, and more change nothing. -/
theorem runCycle_always_failing (worlds : Nat → World) (arg : RetryArg) (st : AppState)
    (fuel : Nat) (hfail : ∀ k, fetchFails (worlds k) = true)
    (harg : arg.withDefault = .count 0) :
    (runCycle (fuel + 4) worlds 0 arg st).delays = [1000 * (0 + 1), 1000 * (1 + 1), 1000 * (2 + 1)]
    ∧ (runCycle (fuel + 4) worlds 0 arg st).delays = [1000, 2000, 3000]
    ∧ (runCycle (fuel + 4) worlds 0 arg st).attempts = 4
    ∧ (runCycle (fuel + 4) worlds 0 arg st).pending = false
    ∧ ∀ st3, (fetchData (worlds 3) (.count 3) st3).timer = none := by
  have h : runCycle (fuel + 4) worlds 0 arg st =
      { attempts := 4, delays := [1000, 2000, 3000],
        final := (runCycle (fuel + 4) worlds 0 arg st).final, pending := false } := by
    rw [runCycle_retry (fuel + 3) worlds 0 0 arg st (hfail 0) harg (by decide)]
    rw [runCycle_retry (fuel + 2) worlds 1 1 (.count 1) _ (hfail 1) rfl (by decide)]
    rw [runCycle_retry (fuel + 1) worlds 2 2 (.count 2) _ (hfail 2) rfl (by decide)]
    rw [runCycle_stop fuel worlds 3 3 (.count 3) _ (hfail 3) rfl (by decide)]
  refine ⟨?_, ?_, ?_, ?_, ?_⟩
  · rw [h]
  · rw [h]
  · rw [h]
  · rw [h]
  · intro st3
    rw [fetchData_timer_of_fail _ _ _ (hfail 3)]
    rfl

/-- C5 at a server that cannot be reached, for the call the periodic timer makes. -/
theorem runCycle_always_failing_witness :
    (runCycle 4 (fun _ => offlineWorld) 0 timerTrigger AppState.initial).delays
        = [1000, 2000, 3000]
    ∧ (runCycle 4 (fun _ => offlineWorld) 0 timerTrigger AppState.initial).attempts = 4
    ∧ (runCycle 4 (fun _ => offlineWorld) 0 timerTrigger AppState.initial).pending = false :=
  have h := runCycle_always_failing (fun _ => offlineWorld) timerTrigger AppState.initial 0
    (fun _ => rfl) rfl
  ⟨h.2.1, h.2.2.1, h.2.2.2.1⟩

/-- C6, the code at the failing input: with the server unreachable, the cycle the refresh
button starts (the click event is the first argument of `fetchData`) runs `fetchData` once
and sets no retry timer, while the cycle the periodic timer starts sets the three retry
timers. -/
theorem refresh_click_schedules_no_retry :
    (runCycle 8 (fun _ => offlineWorld) 0 refreshTrigger AppState.initial).delays = []
    ∧ (runCycle 8 (fun _ => offlineWorld) 0 refreshTrigger AppState.initial).attempts = 1
    ∧ (runCycle 8 (fun _ => offlineWorld) 0 refreshTrigger AppState.initial).pending = false
    ∧ (runCycle 8 (fun _ => offlineWorld) 0 timerTrigger AppState.initial).delays
        = [1000, 2000, 3000]
    ∧ (runCycle 8 (fun _ => offlineWorld) 0 timerTrigger AppState.initial).attempts = 4 := by
  refine ⟨?_, ?_, ?_, ?_, ?_⟩ <;> rfl

/-! ## Properties of `handleApiError` -/

/-- C7, where the claim fails. A 500 response whose body has a `detail` raises an error with
that detail as its message, not the generic server-error message; a 404 response on an error
whose message contains "timeout", and a 503 response on an error of code `ECONNABORTED`,
raise the Timeout message, not NotFound or ServiceUnavailable. -/
theorem handleApiError_not_by_status_alone :
    handleApiError (httpError 500 (.obj [("detail", .str "Bucket scan failed")]))
        = newError "Bucket scan failed"
    ∧ handleApiError (httpError 500 (.obj [("detail", .str "Bucket scan failed")]))
        ≠ newError serverErrorMessage
    ∧ handleApiError { httpError 404 (.obj []) with message := "upstream timeout" }
        = newError timeoutMessage
    ∧ handleApiError { httpError 404 (.obj []) with message := "upstream timeout" }
        ≠ newError notFoundMessage
    ∧ handleApiError { httpError 503 (.obj []) with code := some "ECONNABORTED" }
        = newError timeoutMessage
    ∧ handleApiError { httpError 503 (.obj []) with code := some "ECONNABORTED" }
        ≠ newError unavailableMessage := by
  have h1 : handleApiError (httpError 500 (.obj [("detail", .str "Bucket scan failed")]))
      = newError "Bucket scan failed" := rfl
  have h2 : handleApiError { httpError 404 (.obj []) with message := "upstream timeout" }
      = newError timeoutMessage := rfl
  have h3 : handleApiError { httpError 503 (.obj []) with code := some "ECONNABORTED" }
      = newError timeoutMessage := rfl
  refine ⟨h1, ?_, h2, ?_, h3, ?_⟩
  · rw [h1]
    intro h
    have hm := congrArg JsError.message h
    revert hm
    decide
  · rw [h2]
    intro h
    have hm := congrArg JsError.message h
    revert hm
    decide
  · rw [h3]
    intro h
    have hm := congrArg JsError.message h
    revert hm
    decide

/-- C7 as amended: a transport error whose code is `ECONNABORTED` or whose message contains
"timeout" raises Timeout whatever its status. For every other transport error that carries a
server response, `handleApiError` raises NotFound for status 404, ServiceUnavailable for
status 503, and for every other status: an error whose message is the `detail` of the response
body when that is a non-empty string, what `new Error(detail)` throws for any other truthy
`detail`, and the generic server-error message when the body has no truthy `detail`. -/
theorem handleApiError_by_status (error : JsError) (response : Response)
    (hresp : error.response = some response) :
    ((error.code = some "ECONNABORTED" ∨ includes error.message "timeout" = true) →
      handleApiError error = newError timeoutMessage)
    ∧ (error.code ≠ some "ECONNABORTED" → includes error.message "timeout" = false →
      (response.status = 404 → handleApiError error = newError notFoundMessage)
      ∧ (response.status = 503 → handleApiError error = newError unavailableMessage)
      ∧ (response.status ≠ 404 → response.status ≠ 503 →
          (∀ s, optProp response.data "detail" = .str s → s ≠ "" →
            handleApiError error = newError s)
          ∧ ((optProp response.data "detail").truthy = true →
            handleApiError error = throwNewError (optProp response.data "detail"))
          ∧ ((optProp response.data "detail").truthy = false →
            handleApiError error = newError serverErrorMessage))) := by
  constructor
  · intro h
    rcases h with h | h
    · simp [handleApiError, h]
    · simp [handleApiError, h]
  · intro hcode hmsg
    have hc : (error.code == some "ECONNABORTED") = false := by
      simpa using hcode
    refine ⟨?_, ?_, ?_⟩
    · intro h
      simp [handleApiError, hc, hmsg, hresp, h]
    · intro h
      simp [handleApiError, hc, hmsg, hresp, h]
    · intro h4 h5
      have htruthy : (optProp response.data "detail").truthy = true →
          handleApiError error = throwNewError (optProp response.data "detail") := by
        intro hd
        simp [handleApiError, hc, hmsg, hresp, h4, h5, hd]
      refine ⟨?_, htruthy, ?_⟩
      · intro s hs hne
        have hd : (optProp response.data "detail").truthy = true := by
          rw [hs]
          simp [JsVal.truthy, hne]
        rw [htruthy hd, hs]
        rfl
      · intro hd
        simp [handleApiError, hc, hmsg, hresp, h4, h5, hd]

/-- C7 as amended, at an aborted request, a 404, a 503, a bare 500, a 403 with a detail, a
400 whose detail is a list, a 400 whose detail cannot be converted to a string, and a 500
whose detail is the number 0. -/
theorem handleApiError_by_status_witness :
    handleApiError { httpError 502 (.obj []) with code := some "ECONNABORTED" }
        = newError timeoutMessage
    ∧ handleApiError (httpError 404 (.obj [("detail", .str "Not Found")]))
        = newError notFoundMessage
    ∧ handleApiError (httpError 503 .null) = newError unavailableMessage
    ∧ handleApiError (httpError 500 (.str "")) = newError serverErrorMessage
    ∧ handleApiError (httpError 403 (.obj [("detail", .str "Access denied")]))
        = newError "Access denied"
    ∧ handleApiError (httpError 400 (.obj [("detail", .arr [.num "1e+21", .null, .str "x"])]))
        = newError "1e+21,,x"
    ∧ handleApiError (httpError 400 (.obj [("detail", .obj [("toString", .str "x")])]))
        = typeError "Cannot convert object to primitive value"
    ∧ handleApiError (httpError 500 (.obj [("detail", .num "0")]))
        = newError serverErrorMessage :=
  ⟨(handleApiError_by_status { httpError 502 (.obj []) with code := some "ECONNABORTED" }
      ⟨502, .obj []⟩ rfl).1 (Or.inl rfl),
   ((handleApiError_by_status (httpError 404 (.obj [("detail", .str "Not Found")]))
      ⟨404, .obj [("detail", .str "Not Found")]⟩ rfl).2 (by decide) rfl).1 rfl,
   ((handleApiError_by_status (httpError 503 .null) ⟨503, .null⟩ rfl).2
      (by decide) rfl).2.1 rfl,
   (((handleApiError_by_status (httpError 500 (.str "")) ⟨500, .str ""⟩ rfl).2
      (by decide) rfl).2.2 (by decide) (by decide)).2.2 rfl,
   (((handleApiError_by_status (httpError 403 (.obj [("detail", .str "Access denied")]))
      ⟨403, .obj [("detail", .str "Access denied")]⟩ rfl).2
      (by decide) rfl).2.2 (by decide) (by decide)).1 "Access denied" rfl (by decide),
   (((handleApiError_by_status
      (httpError 400 (.obj [("detail", .arr [.num "1e+21", .null, .str "x"])]))
      ⟨400, .obj [("detail", .arr [.num "1e+21", .null, .str "x"])]⟩ rfl).2
      (by decide) rfl).2.2 (by decide) (by decide)).2.1 rfl,
   rfl, rfl⟩

/-! ## Properties of the 422 path of `remediateBucket` -/

/-- C8, where the claim fails. On a 422 whose first detail element has a `msg` that is the
empty string, the error raised carries the generic validation message although the `msg` is
present; on a 422 whose body is `null` the error raised is a TypeError, neither the `msg`
nor the generic validation message. In both cases one POST is made and `handleApiError` is
not called. -/
theorem remediateBucket_422_not_always_msg :
    remediateBucket (rejectingPost 422 (.obj [("detail", .arr [.obj [("msg", .str "")]])]))
        (.str "logs") (.arr [.str "enable_encryption"])
      = ⟨[.post "/remediate" (.obj [("bucket_name", .str "logs"),
            ("actions", .arr [.str "enable_encryption"])])],
          .error (newError "Invalid remediation request: Validation error")⟩
    ∧ firstDetailMsg (.obj [("detail", .arr [.obj [("msg", .str "")]])]) = .str ""
    ∧ "Invalid remediation request: Validation error" ≠ "Invalid remediation request: " ++ ""
    ∧ remediateBucket (rejectingPost 422 .null)
        (.str "logs") (.arr [.str "enable_encryption"])
      = ⟨[.post "/remediate" (.obj [("bucket_name", .str "logs"),
            ("actions", .arr [.str "enable_encryption"])])],
          .error (typeError "Cannot read properties of null (reading 'detail')")⟩ := by
  refine ⟨rfl, rfl, by decide, rfl⟩

/-- C8 as amended: when the POST issued by `remediateBucket` fails with HTTP 422 and a
response body that is neither `null` nor `undefined`, the error raised to the caller is
"Invalid remediation request: " followed by the `msg` of the first element of the body's
`detail`, verbatim, when that `msg` is a non-empty string, and followed by the generic
"Validation error" when there is no truthy `msg`; for a truthy `msg` of another type it is
what `new Error('Invalid remediation request: ' + msg)` throws. In each case exactly one POST
is made and `handleApiError` is not called. -/
theorem remediateBucket_422 (post : PostFn) (bucketName actions : JsVal) (error : JsError)
    (response : Response)
    (hguard : passesGuard bucketName actions = true)
    (hpost : post "/remediate" (remediationBody bucketName actions) = .error error)
    (hresp : error.response = some response)
    (h422 : response.status = 422)
    (hbody : response.data.nullish = false) :
    (∀ s, firstDetailMsg response.data = .str s → s ≠ "" →
      remediateBucket post bucketName actions
        = ⟨[.post "/remediate" (remediationBody bucketName actions)],
            .error (newError ("Invalid remediation request: " ++ s))⟩)
    ∧ ((firstDetailMsg response.data).truthy = true →
      remediateBucket post bucketName actions
        = ⟨[.post "/remediate" (remediationBody bucketName actions)],
            .error (validationError (firstDetailMsg response.data))⟩)
    ∧ ((firstDetailMsg response.data).truthy = false →
      remediateBucket post bucketName actions
        = ⟨[.post "/remediate" (remediationBody bucketName actions)],
            .error (newError "Invalid remediation request: Validation error")⟩) := by
  have hrun : remediateBucket post bucketName actions
      = ⟨[.post "/remediate" (remediationBody bucketName actions)],
          .error (validationError
            ((firstDetailMsg response.data).or (.str "Validation error")))⟩ := by
    simp only [remediateBucket, remediateTry_pass post bucketName actions hguard]
    simp only [remediationBody] at hpost ⊢
    simp only [hpost]
    simp [remediateCatch, hresp, h422, getProp_ok _ _ hbody, firstDetailMsg]
  refine ⟨?_, ?_, ?_⟩
  · intro s hs hne
    rw [hrun, hs]
    have : (JsVal.str s).truthy = true := by simp [JsVal.truthy, hne]
    rw [JsVal.or_of_truthy _ _ this]
    rfl
  · intro ht
    rw [hrun, JsVal.or_of_truthy _ _ ht]
  · intro hf
    rw [hrun]
    simp [JsVal.or, hf]
    rfl

/-- C8 as amended, at a 422 whose first detail carries a message, at 422 responses without
a usable message (no detail, an empty detail, a first element without `msg`), and at a 422
whose `msg` is the number 1e21. -/
theorem remediateBucket_422_witness :
    remediateBucket
        (rejectingPost 422 (.obj [("detail", .arr [.obj [("msg", .num "1e+21")]])]))
        (.str "logs") (.arr [.str "enable_encryption"])
      = ⟨[.post "/remediate" (.obj [("bucket_name", .str "logs"),
            ("actions", .arr [.str "enable_encryption"])])],
          .error (newError "Invalid remediation request: 1e+21")⟩
    ∧ remediateBucket
        (rejectingPost 422 (.obj [("detail", .arr [.obj [("msg", .str "bucket is locked")],
          .obj [("msg", .str "second")]])]))
        (.str "logs") (.arr [.str "enable_encryption"])
      = ⟨[.post "/remediate" (.obj [("bucket_name", .str "logs"),
            ("actions", .arr [.str "enable_encryption"])])],
          .error (newError "Invalid remediation request: bucket is locked")⟩
    ∧ remediateBucket (rejectingPost 422 (.obj []))
        (.str "logs") (.arr [.str "enable_encryption"])
      = ⟨[.post "/remediate" (.obj [("bucket_name", .str "logs"),
            ("actions", .arr [.str "enable_encryption"])])],
          .error (newError "Invalid remediation request: Validation error")⟩
    ∧ remediateBucket (rejectingPost 422 (.obj [("detail", .arr [])]))
        (.str "logs") (.arr [.str "enable_encryption"])
      = ⟨[.post "/remediate" (.obj [("bucket_name", .str "logs"),
            ("actions", .arr [.str "enable_encryption"])])],
          .error (newError "Invalid remediation request: Validation error")⟩
    ∧ remediateBucket (rejectingPost 422 (.obj [("detail", .arr [.obj [("loc", .str "body")]])]))
        (.str "logs") (.arr [.str "enable_encryption"])
      = ⟨[.post "/remediate" (.obj [("bucket_name", .str "logs"),
            ("actions", .arr [.str "enable_encryption"])])],
          .error (newError "Invalid remediation request: Validation error")⟩ :=
  ⟨(remediateBucket_422
      (rejectingPost 422 (.obj [("detail", .arr [.obj [("msg", .num "1e+21")]])]))
      (.str "logs") (.arr [.str "enable_encryption"]) _ _ rfl rfl rfl rfl rfl).2.1 rfl,
   (remediateBucket_422
      (rejectingPost 422 (.obj [("detail", .arr [.obj [("msg", .str "bucket is locked")],
        .obj [("msg", .str "second")]])]))
      (.str "logs") (.arr [.str "enable_encryption"]) _ _ rfl rfl rfl rfl
      rfl).1 "bucket is locked" rfl (by decide),
   (remediateBucket_422 (rejectingPost 422 (.obj [])) (.str "logs")
      (.arr [.str "enable_encryption"]) _ _ rfl rfl rfl rfl rfl).2.2 rfl,
   rfl, rfl⟩

/-! ## The actions a remediation request submits -/

/-- The POST bodies of two runs of calls, one after the other. -/
theorem postBodies_append (xs ys : List Event) :
    postBodies (xs ++ ys) = postBodies xs ++ postBodies ys := by
  induction xs with
  | nil => rfl
  | cons x rest ih => cases x <;> simp [postBodies, ih]

/-- The `catch` block of `handleRemediate` posts nothing. -/
theorem postBodies_handleRemediate (post : PostFn) (toast : ToastFn) (bucket : JsVal) :
    postBodies (handleRemediate post toast bucket).trace
      = postBodies (handleRemediateTry post toast (bucketData bucket)).trace := by
  unfold handleRemediate
  cases hr : (handleRemediateTry post toast (bucketData bucket)).result with
  | ok v => simp [hr]
  | error e => simp [hr, postBodies_append, postBodies]

/-- With actions derived, the POST bodies of `handleRemediate` are those of its call of
`remediateBucket`. -/
theorem postBodies_handleRemediateTry (post : PostFn) (toast : ToastFn) (data : BucketData)
    (actions : List String) (hd : deriveActions data.issues = .ok actions)
    (hne : actions ≠ []) :
    postBodies (handleRemediateTry post toast data).trace
      = postBodies (remediateBucket post data.bucket_name (.arr (actions.map .str))).trace := by
  have hlen : actions.length > 0 := List.length_pos.mpr hne
  unfold handleRemediateTry
  simp only [hd, hlen, if_true]
  cases hc : (remediateBucket post data.bucket_name (.arr (actions.map .str))).result with
  | error e => simp [hc]
  | ok v =>
    simp only [hc]
    cases toast .success "Bucket secured successfully" <;>
      simp [postBodies_append, postBodies]

/-- With no action derived, `handleRemediate` posts nothing. -/
theorem postBodies_handleRemediateTry_nil (post : PostFn) (toast : ToastFn) (data : BucketData)
    (hd : deriveActions data.issues = .ok []) :
    postBodies (handleRemediateTry post toast data).trace = [] := by
  unfold handleRemediateTry
  simp [hd, postBodies]

/-- Every action an issue contributes passes the vocabulary filter. -/
theorem filter_derived (issues : List String) :
    ((issues.flatMap issueActions).map JsVal.str).filter isValidAction
      = (issues.flatMap issueActions).map JsVal.str := by
  rw [List.filter_eq_self]
  intro v hv
  obtain ⟨a, ha, rfl⟩ := List.mem_map.mp hv
  obtain ⟨issue, _, hmem⟩ := List.mem_flatMap.mp ha
  rcases issueActions_vocabulary issue a hmem with h | h <;> rw [h] <;> rfl

/-- The card of a finding always hands `remediateBucket` a truthy bucket name. -/
theorem bucketData_name_truthy (bucket : JsVal) :
    (bucketData bucket).bucket_name.truthy = true :=
  JsVal.or_truthy _ _ rfl

/-- How often one issue contributes `enable_encryption`: once if it matches, else never. -/
theorem count_issueActions_encryption (issue : String) :
    (issueActions issue).count "enable_encryption"
      = if includes (toLowerCase issue) "encryption" then 1 else 0 := by
  unfold issueActions
  by_cases h1 : includes (toLowerCase issue) "encryption" = true <;>
    by_cases h2 : (includes (toLowerCase issue) "public"
      || includes (toLowerCase issue) "access") = true <;>
    simp [h1, h2]

/-- How often one issue contributes `block_public_access`: once if it matches, else never. -/
theorem count_issueActions_public (issue : String) :
    (issueActions issue).count "block_public_access"
      = if (includes (toLowerCase issue) "public" || includes (toLowerCase issue) "access")
        then 1 else 0 := by
  unfold issueActions
  by_cases h1 : includes (toLowerCase issue) "encryption" = true <;>
    by_cases h2 : (includes (toLowerCase issue) "public"
      || includes (toLowerCase issue) "access") = true <;>
    simp [h1, h2]

/-- The number of times an action occurs in the derived list is the number of issues that
contribute it. -/
theorem count_flatMap_issueActions (a : String) (p : String → Bool) (issues : List String)
    (h : ∀ issue, (issueActions issue).count a = if p issue then 1 else 0) :
    (issues.flatMap issueActions).count a = issues.countP p := by
  induction issues with
  | nil => rfl
  | cons issue rest ih =>
    rw [List.flatMap_cons, List.count_append, ih, h, List.countP_cons]
    by_cases hp : p issue = true <;> simp [hp, Nat.add_comm]

/-- C9, where the claim fails. For a finding with two issue strings that both contain
"encryption", `handleRemediate` derives `enable_encryption` twice and the POST body carries
it twice: the submitted actions are a list with a repeated element, not a set. -/
theorem submitted_actions_repeat :
    deriveActions (bucketData (Finding.toJs
        { bucket_name := "logs", status := "Insecure", severity := "HIGH",
          issues := ["Default encryption is disabled", "Objects lack encryption at rest"]
        })).issues
      = .ok ["enable_encryption", "enable_encryption"]
    ∧ postBodies (handleRemediate acceptingPost quietToast (Finding.toJs
        { bucket_name := "logs", status := "Insecure", severity := "HIGH",
          issues := ["Default encryption is disabled", "Objects lack encryption at rest"]
        })).trace
      = [.obj [("bucket_name", .str "logs"),
          ("actions", .arr [.str "enable_encryption", .str "enable_encryption"])]]
    ∧ ["enable_encryption", "enable_encryption"].count "enable_encryption" = 2 := by
  refine ⟨rfl, rfl, by decide⟩

/-- C9 as amended: for every finding, the actions submitted in its remediation request are
drawn from the vocabulary only and form a list in issue order, `enable_encryption` occurring
once for every issue string that contains "encryption" and `block_public_access` once for
every issue string that contains "public" or "access"; a single POST carries that list, and
no POST is made when no issue matches. Each action therefore occurs at most once when at most
one issue string matches it. -/
theorem submitted_actions_per_issue (post : PostFn) (toast : ToastFn) (f : Finding) :
    postBodies (handleRemediate post toast f.toJs).trace
      = (if f.issues.flatMap issueActions = [] then []
         else [.obj [("bucket_name", (bucketData f.toJs).bucket_name),
                ("actions", .arr ((f.issues.flatMap issueActions).map .str))]])
    ∧ (f.issues.flatMap issueActions).count "enable_encryption"
        = f.issues.countP (fun issue => includes (toLowerCase issue) "encryption")
    ∧ (f.issues.flatMap issueActions).count "block_public_access"
        = f.issues.countP (fun issue => includes (toLowerCase issue) "public"
            || includes (toLowerCase issue) "access")
    ∧ ∀ a ∈ f.issues.flatMap issueActions, a ∈ vocabulary := by
  refine ⟨?_, ?_, ?_, ?_⟩
  · rw [postBodies_handleRemediate]
    by_cases hnil : f.issues.flatMap issueActions = []
    · rw [if_pos hnil]
      apply postBodies_handleRemediateTry_nil
      rw [deriveActions_finding, hnil]
    · rw [if_neg hnil,
        postBodies_handleRemediateTry post toast _ _ (deriveActions_finding f) hnil]
      have hguard : passesGuard (bucketData f.toJs).bucket_name
          (.arr ((f.issues.flatMap issueActions).map .str)) = true := by
        have hany : ((f.issues.flatMap issueActions).map JsVal.str).any isValidAction
            = true := by
          cases hl : f.issues.flatMap issueActions with
          | nil => exact absurd hl hnil
          | cons a rest =>
            have hv := filter_derived f.issues
            rw [hl] at hv
            have hmem : JsVal.str a ∈ ((a :: rest).map JsVal.str).filter isValidAction := by
              rw [hv]; simp
            have := (List.mem_filter.mp hmem).2
            simp [this]
        simp [passesGuard, bucketData_name_truthy, JsVal.isArray, arrayItems, hany]
      obtain ⟨rest, htrace, hrest⟩ := remediateBucket_pass post _ _ hguard
      rw [htrace]
      simp only [arrayItems, filter_derived]
      rcases hrest with h | ⟨e, h⟩ <;> simp [h, postBodies]
  · exact count_flatMap_issueActions _ _ _ count_issueActions_encryption
  · exact count_flatMap_issueActions _ _ _ count_issueActions_public
  · intro a ha
    obtain ⟨issue, _, hmem⟩ := List.mem_flatMap.mp ha
    rcases issueActions_vocabulary issue a hmem with h | h <;> rw [h] <;> decide

/-! ## Properties of the stats tiles -/

/-- When the `try` block of `fetchData` completes, the published stats are the body of the
stats response, as it came. -/
theorem fetchData_publishes_stats (w : World) (arg : RetryArg) (st : AppState)
    (response : Response) (hs : w.get "/stats" = .ok response)
    (hok : threw (fetchTry w { st with loading := true }).2.result = false) :
    (fetchData w arg st).state.stats = response.data := by
  unfold fetchData
  revert hok
  unfold fetchTry getFindings getStats
  simp only [hs]
  cases hf : w.get "/findings" with
  | error e => simp [promiseAll, threw]
  | ok findings =>
    simp only [promiseAll]
    cases hfmt : formatFindings findings.data with
    | error e => simp [threw]
    | ok formatted =>
      by_cases hlen : (formatted.length == 0) = true
      · simp only [hlen, if_true]
        cases w.toast .info "No buckets found in your AWS account" <;> simp [threw]
      · simp [hlen, threw]

/-- The tiles carry the destructured values. -/
theorem securityStats_values (ar : Arith) (stats : JsVal) (cards : StatCards)
    (h : SecurityStats ar stats = .ok (some cards)) :
    ∃ values, destructureStats ar stats = .ok values
      ∧ cards.total_buckets = values.total_buckets
      ∧ cards.secure_buckets = values.secure_buckets
      ∧ cards.insecure_buckets = values.insecure_buckets := by
  unfold SecurityStats at h
  by_cases ht : stats.truthy = true
  · simp only [ht, Bool.not_true, Bool.false_eq_true, if_false] at h
    cases hd : destructureStats ar stats with
    | error e => simp [hd] at h
    | ok values =>
      simp only [hd] at h
      cases hs : jsToString values.security_score with
      | error e => simp [hs] at h
      | ok text =>
        simp only [hs] at h
        cases hg : ar.atLeast values.security_score (.num "70") with
        | error e => simp [hg] at h
        | ok good =>
          simp only [hg] at h
          cases ha : ar.greaterThan values.insecure_buckets (.num "0") with
          | error e => simp [ha] at h
          | ok attention =>
            simp only [ha, Except.ok.injEq, Option.some.injEq] at h
            subst h
            exact ⟨values, rfl, rfl, rfl, rfl⟩
  · simp [ht] at h

/-- A destructuring default is taken for `undefined` and for nothing else. -/
theorem orDefault_cases (v fallback : JsVal) :
    (v = .undefined → orDefault v fallback = fallback)
    ∧ (v ≠ .undefined → orDefault v fallback = v) := by
  cases v <;> simp [orDefault]

/-- The destructuring of a stats value: the literal defaults for missing fields only, a
supplied `insecure_buckets` as supplied, and the difference for a missing one. -/
theorem destructureStats_spec (ar : Arith) (stats : JsVal) (values : StatValues)
    (h : destructureStats ar stats = .ok values) :
    values.secure_buckets = orDefault (propOf stats "secure_buckets") (.num "0")
    ∧ values.total_buckets = orDefault (propOf stats "total_buckets") (.num "0")
    ∧ (propOf stats "insecure_buckets" ≠ .undefined →
        values.insecure_buckets = propOf stats "insecure_buckets")
    ∧ (propOf stats "insecure_buckets" = .undefined →
        ar.minus values.total_buckets values.secure_buckets = .ok values.insecure_buckets) := by
  unfold destructureStats at h
  cases hv : propOf stats "insecure_buckets" <;> simp only [hv] at h
  case undefined =>
    cases hm : ar.minus (orDefault (propOf stats "total_buckets") (.num "0"))
        (orDefault (propOf stats "secure_buckets") (.num "0")) with
    | error e => simp [hm] at h
    | ok difference =>
      simp only [hm, Except.ok.injEq] at h
      subst h
      exact ⟨rfl, rfl, fun hne => absurd rfl hne, fun _ => hm⟩
  all_goals
    simp only [Except.ok.injEq] at h
    subst h
    exact ⟨rfl, rfl, fun _ => rfl, fun hu => by simp at hu⟩

/-- C10, where the claim fails. The stats object with `total_buckets` 10, `secure_buckets` 4
and `insecure_buckets` 9 is published as it came and its tile presents 9, while
`total_buckets - secure_buckets` is 6, and this whatever the engine's arithmetic; with
`insecure_buckets` `null` the tile is given `null`; and the stats object with
`secure_buckets` 7 and `total_buckets` 5 is presented with 7 secure of 5 buckets and -2
insecure ones. -/
theorem securityStats_trusts_supplied :
    (fetchData
        (servingWorld (.arr [.obj [("bucket_name", .str "logs"), ("status", .str "Secure")]])
          (.obj [("security_score", .num "40"), ("secure_buckets", .num "4"),
            ("total_buckets", .num "10"), ("insecure_buckets", .num "9")]))
        timerTrigger AppState.initial).state.stats
      = .obj [("security_score", .num "40"), ("secure_buckets", .num "4"),
          ("total_buckets", .num "10"), ("insecure_buckets", .num "9")]
    ∧ SecurityStats exampleArith (.obj [("security_score", .num "40"),
          ("secure_buckets", .num "4"), ("total_buckets", .num "10"),
          ("insecure_buckets", .num "9")])
      = .ok (some
          { scoreText := "40%", scoreGood := false, total_buckets := .num "10",
            secure_buckets := .num "4", insecure_buckets := .num "9",
            description := "Requires attention" })
    ∧ exampleArith.minus (.num "10") (.num "4") = .ok (.num "6")
    ∧ JsVal.num "9" ≠ JsVal.num "6"
    ∧ (∀ ar : Arith,
        destructureStats ar (.obj [("security_score", .num "40"),
            ("secure_buckets", .num "4"), ("total_buckets", .num "10"),
            ("insecure_buckets", .num "9")])
          = .ok { security_score := .num "40", secure_buckets := .num "4",
                  total_buckets := .num "10", insecure_buckets := .num "9" })
    ∧ SecurityStats exampleArith (.obj [("security_score", .num "40"),
          ("secure_buckets", .num "4"), ("total_buckets", .num "10"),
          ("insecure_buckets", .null)])
      = .ok (some
          { scoreText := "40%", scoreGood := false, total_buckets := .num "10",
            secure_buckets := .num "4", insecure_buckets := .null,
            description := "All buckets secure" })
    ∧ SecurityStats exampleArith (.obj [("security_score", .num "100"),
          ("secure_buckets", .num "7"), ("total_buckets", .num "5")])
      = .ok (some
          { scoreText := "100%", scoreGood := true, total_buckets := .num "5",
            secure_buckets := .num "7", insecure_buckets := .num "-2",
            description := "All buckets secure" }) := by
  refine ⟨rfl, rfl, rfl, by simp, fun _ => rfl, rfl, rfl⟩

/-- C10 as amended: for every stats object the service can return, whenever `SecurityStats`
presents its tiles, `secure_buckets` and `total_buckets` are presented as supplied (0 for a
missing one only) without being compared, `insecure_buckets` is presented as supplied
whenever the object has one (`null` included), and `total_buckets - secure_buckets` of the
presented values is presented only when the object has none. -/
theorem securityStats_presents (ar : Arith) (stats : JsVal) (cards : StatCards)
    (h : SecurityStats ar stats = .ok (some cards)) :
    (propOf stats "secure_buckets" = .undefined → cards.secure_buckets = .num "0")
    ∧ (propOf stats "secure_buckets" ≠ .undefined →
        cards.secure_buckets = propOf stats "secure_buckets")
    ∧ (propOf stats "total_buckets" = .undefined → cards.total_buckets = .num "0")
    ∧ (propOf stats "total_buckets" ≠ .undefined →
        cards.total_buckets = propOf stats "total_buckets")
    ∧ (propOf stats "insecure_buckets" ≠ .undefined →
        cards.insecure_buckets = propOf stats "insecure_buckets")
    ∧ (propOf stats "insecure_buckets" = .undefined →
        ar.minus cards.total_buckets cards.secure_buckets = .ok cards.insecure_buckets) := by
  obtain ⟨values, hd, ht, hs, hi⟩ := securityStats_values ar stats cards h
  obtain ⟨h1, h2, h3, h4⟩ := destructureStats_spec ar stats values hd
  rw [ht, hs, hi, h1, h2]
  refine ⟨(orDefault_cases _ _).1, (orDefault_cases _ _).2, (orDefault_cases _ _).1,
    (orDefault_cases _ _).2, h3, ?_⟩
  intro hu
  have := h4 hu
  rwa [h1, h2] at this

/-- C10 as amended, at the tiles of a stats object without `insecure_buckets` (3 secure of 4
buckets, and their difference 1), of one that supplies `insecure_buckets`, and of one whose
`secure_buckets` is `null` and whose `total_buckets` is a string; no tiles for a `null`
stats. -/
theorem securityStats_presents_witness :
    (SecurityStats exampleArith (.obj [("security_score", .num "75"),
          ("secure_buckets", .num "3"), ("total_buckets", .num "4")])
        = .ok (some
            { scoreText := "75%", scoreGood := true, total_buckets := .num "4",
              secure_buckets := .num "3", insecure_buckets := .num "1",
              description := "Requires attention" })
      ∧ exampleArith.minus (.num "4") (.num "3") = .ok (.num "1"))
    ∧ (SecurityStats exampleArith (.obj [("security_score", .num "75"),
          ("secure_buckets", .num "3"), ("total_buckets", .num "4"),
          ("insecure_buckets", .num "9")])
        = .ok (some
            { scoreText := "75%", scoreGood := true, total_buckets := .num "4",
              secure_buckets := .num "3", insecure_buckets := .num "9",
              description := "Requires attention" })
      ∧ propOf (.obj [("security_score", .num "75"), ("secure_buckets", .num "3"),
          ("total_buckets", .num "4"), ("insecure_buckets", .num "9")]) "insecure_buckets"
        = .num "9")
    ∧ SecurityStats exampleArith (.obj [("security_score", .num "75"),
          ("secure_buckets", .null), ("total_buckets", .str "4"),
          ("insecure_buckets", .num "9")])
        = .ok (some
            { scoreText := "75%", scoreGood := true, total_buckets := .str "4",
              secure_buckets := .null, insecure_buckets := .num "9",
              description := "Requires attention" })
    ∧ SecurityStats exampleArith .null = .ok none := by
  have h1 : SecurityStats exampleArith (.obj [("security_score", .num "75"),
      ("secure_buckets", .num "3"), ("total_buckets", .num "4")])
      = .ok (some
          { scoreText := "75%", scoreGood := true, total_buckets := .num "4",
            secure_buckets := .num "3", insecure_buckets := .num "1",
            description := "Requires attention" }) := rfl
  have h2 : SecurityStats exampleArith (.obj [("security_score", .num "75"),
      ("secure_buckets", .num "3"), ("total_buckets", .num "4"),
      ("insecure_buckets", .num "9")])
      = .ok (some
          { scoreText := "75%", scoreGood := true, total_buckets := .num "4",
            secure_buckets := .num "3", insecure_buckets := .num "9",
            description := "Requires attention" }) := rfl
  exact ⟨⟨h1, (securityStats_presents exampleArith _ _ h1).2.2.2.2.2 rfl⟩,
    ⟨h2, ((securityStats_presents exampleArith _ _ h2).2.2.2.2.1
      (by simp [propOf, lookup])).symm⟩, rfl, rfl⟩

/-! ## The status of a normalized finding -/

/-- A value strictly equal to a string literal is that string. -/
theorem strictEqStr_eq (v : JsVal) (lit : String) (h : v.strictEqStr lit = true) :
    v = .str lit := by
  cases v <;> simp [JsVal.strictEqStr] at h
  rw [h]

/-- The fallback `status || 'Insecure'` reads "Secure" exactly when the status is "Secure". -/
theorem or_insecure_strictEq_secure (status : JsVal) :
    (status.or (.str "Insecure")).strictEqStr "Secure" = status.strictEqStr "Secure" := by
  by_cases ht : status.truthy = true
  · rw [JsVal.or_of_truthy _ _ ht]
  · simp only [Bool.not_eq_true] at ht
    have hor : status.or (.str "Insecure") = .str "Insecure" := by simp [JsVal.or, ht]
    rw [hor]
    cases status <;> simp [JsVal.truthy] at ht <;> simp [JsVal.strictEqStr]
    rw [ht]
    decide

/-- C11, where the claim fails. A raw finding of status "Unknown" is normalized to a finding of
status "Unknown", which is neither "Insecure" nor in the set of the two statuses, and the card
keeps it; a raw finding without status is normalized to a finding whose status is still
missing. -/
theorem normalizeFinding_keeps_unknown_status :
    normalizeFinding (.obj [("bucket_name", .str "logs"), ("status", .str "Unknown")])
      = .ok (.obj [("bucket_name", .str "logs"), ("status", .str "Unknown"),
          ("severity", .str "HIGH"), ("issues", .arr [])])
    ∧ JsVal.str "Unknown" ≠ JsVal.str "Insecure"
    ∧ JsVal.str "Unknown" ≠ JsVal.str "Secure"
    ∧ (bucketData (.obj [("bucket_name", .str "logs"), ("status", .str "Unknown"),
          ("severity", .str "HIGH"), ("issues", .arr [])])).status = .str "Unknown"
    ∧ normalizeFinding (.obj [("bucket_name", .str "logs")])
      = .ok (.obj [("bucket_name", .str "logs"), ("status", .undefined),
          ("severity", .str "HIGH"), ("issues", .arr [])])
    ∧ JsVal.undefined ≠ JsVal.str "Insecure" := by
  refine ⟨rfl, by simp, by simp, rfl, rfl, by simp⟩

/-- C11 as amended: for every raw finding the normalizer copies the status unchanged, a
missing status staying missing, so the normalized status is "Secure" only when the raw status
is exactly "Secure"; the card of the finding then reads a missing or empty (falsy) status as
"Insecure" and keeps any other status as it is, and reads "Secure" only when the raw status is
exactly "Secure"; a finding whose status is not "Secure" and that has no severity gets
severity HIGH. -/
theorem normalizeFinding_status (finding : JsVal) (h : finding.nullish = false) :
    ∃ out, normalizeFinding finding = .ok out
      ∧ propOf out "status" = propOf finding "status"
      ∧ ((propOf out "status").strictEqStr "Secure" = true →
          propOf finding "status" = .str "Secure")
      ∧ ((propOf finding "status").truthy = false → (bucketData out).status = .str "Insecure")
      ∧ ((propOf finding "status").truthy = true →
          (bucketData out).status = propOf finding "status")
      ∧ (bucketData out).status.strictEqStr "Secure"
          = (propOf finding "status").strictEqStr "Secure"
      ∧ ((propOf finding "status").strictEqStr "Secure" = false →
          (propOf finding "severity").truthy = false → propOf out "severity" = .str "HIGH") := by
  refine ⟨_, normalizeFinding_ok finding h, rfl, ?_, ?_, ?_, ?_, ?_⟩
  · intro hs
    exact strictEqStr_eq _ _ hs
  · intro hf
    show (propOf finding "status").or (.str "Insecure") = .str "Insecure"
    simp [JsVal.or, hf]
  · intro ht
    show (propOf finding "status").or (.str "Insecure") = propOf finding "status"
    simp [JsVal.or, ht]
  · exact or_insecure_strictEq_secure _
  · intro hs hf
    show (propOf finding "severity").or
      (if (propOf finding "status").strictEqStr "Secure" then .str "LOW" else .str "HIGH")
      = .str "HIGH"
    simp [JsVal.or, hs, hf]

/-- C11 as amended, at a raw finding without status, at one of status "Unknown" and at one of
status "Secure". -/
theorem normalizeFinding_status_witness :
    (∃ out, normalizeFinding (.obj [("bucket_name", .str "logs")]) = .ok out
        ∧ propOf out "status" = .undefined ∧ (bucketData out).status = .str "Insecure")
    ∧ (∃ out, normalizeFinding (.obj [("status", .str "Unknown")]) = .ok out
        ∧ propOf out "status" = .str "Unknown" ∧ (bucketData out).status = .str "Unknown"
        ∧ propOf out "severity" = .str "HIGH")
    ∧ (∃ out, normalizeFinding (.obj [("status", .str "Secure")]) = .ok out
        ∧ propOf out "status" = .str "Secure" ∧ (bucketData out).status = .str "Secure") := by
  refine ⟨?_, ?_, ?_⟩
  · obtain ⟨out, h1, h2, _, h4, _, _, _⟩ :=
      normalizeFinding_status (.obj [("bucket_name", .str "logs")]) rfl
    exact ⟨out, h1, h2, h4 rfl⟩
  · obtain ⟨out, h1, h2, _, _, h5, _, h7⟩ :=
      normalizeFinding_status (.obj [("status", .str "Unknown")]) rfl
    exact ⟨out, h1, h2, h5 rfl, h7 rfl rfl⟩
  · obtain ⟨out, h1, h2, _, _, h5, _, _⟩ :=
      normalizeFinding_status (.obj [("status", .str "Secure")]) rfl
    exact ⟨out, h1, h2, h5 rfl⟩

/-! ## What a fetch attempt publishes -/

/-- When one of the two fetches fails, the `try` block of `fetchData` throws before it
touches the state. -/
theorem fetchTry_fail (w : World) (st : AppState) (h : fetchFails w = true) :
    (fetchTry w st).1 = st := by
  unfold fetchFails at h
  unfold fetchTry getFindings getStats
  cases hf : w.get "/findings" <;> cases hs : w.get "/stats" <;>
    simp [hf, hs, threw] at h ⊢ <;> simp [promiseAll]

/-- When both fetches succeed and the findings are formatted, the `try` block of `fetchData`
replaces the findings, the stats and the timestamp together and clears the error. -/
theorem fetchTry_publishes (w : World) (st : AppState) (rf rs : Response)
    (formatted : List JsVal) (hf : w.get "/findings" = .ok rf) (hs : w.get "/stats" = .ok rs)
    (hfmt : formatFindings rf.data = .ok formatted) :
    (fetchTry w st).1
      = { buckets := formatted, stats := rs.data, loading := st.loading, error := none,
          lastChecked := some w.now } := by
  unfold fetchTry getFindings getStats
  simp only [hf, hs, promiseAll, hfmt]
  by_cases hlen : (formatted.length == 0) = true <;> simp [hlen]

/-- When both fetches succeed and the findings are formatted, the `try` block of `fetchData`
completes unless the list is empty and the notice throws. -/
theorem fetchTry_completes (w : World) (st : AppState) (rf rs : Response)
    (formatted : List JsVal) (hf : w.get "/findings" = .ok rf) (hs : w.get "/stats" = .ok rs)
    (hfmt : formatFindings rf.data = .ok formatted)
    (hnotice : formatted ≠ [] ∨ w.toast .info noBucketsNotice = .ok ()) :
    (fetchTry w st).2.result = .ok () := by
  unfold fetchTry getFindings getStats
  simp only [hf, hs, promiseAll, hfmt]
  by_cases hlen : (formatted.length == 0) = true
  · have hnil : formatted = [] := by simpa using hlen
    rcases hnotice with h | h
    · exact absurd hnil h
    · simp only [hlen, if_true]
      exact h
  · simp [hlen]

/-- When both fetches succeed but the findings response cannot be mapped (it is no array, or
an element is `null`), the `try` block of `fetchData` throws before it touches the state. -/
theorem fetchTry_unformatted (w : World) (st : AppState) (rf rs : Response) (e : JsError)
    (hf : w.get "/findings" = .ok rf) (hs : w.get "/stats" = .ok rs)
    (hfmt : formatFindings rf.data = .error e) :
    fetchTry w st = (st, ⟨[.get "/findings", .get "/stats"], .error e⟩) := by
  unfold fetchTry getFindings getStats
  simp [hf, hs, promiseAll, hfmt]

/-- The state `fetchData` leaves when its `try` block throws: that of the `try` block with
the error set and loading off. -/
theorem fetchData_state_of_threw (w : World) (arg : RetryArg) (st : AppState)
    (h : threw (fetchTry w { st with loading := true }).2.result = true) :
    ∃ message, (fetchData w arg st).state
      = { (fetchTry w { st with loading := true }).1 with
          error := some message, loading := false } := by
  cases hr : (fetchTry w { st with loading := true }).2.result with
  | ok v => simp [hr, threw] at h
  | error e =>
    exact ⟨if e.message != "" then e.message else "Failed to fetch bucket information",
      by simp [fetchData, hr]⟩

/-- An attempt whose empty-list notice throws leaves the published list, stats and timestamp
with the error set. -/
theorem fetchData_notice_throws (w : World) (arg : RetryArg) (st : AppState)
    (rf rs : Response) (e : JsError)
    (hf : w.get "/findings" = .ok rf) (hs : w.get "/stats" = .ok rs)
    (hfmt : formatFindings rf.data = .ok [])
    (hnotice : w.toast .info noBucketsNotice = .error e) :
    ∃ message, (fetchData w arg st).state
      = { buckets := [], stats := rs.data, loading := false, error := some message,
          lastChecked := some w.now } := by
  have hpub := fetchTry_publishes w { st with loading := true } rf rs [] hf hs hfmt
  have hres : (fetchTry w { st with loading := true }).2.result = .error e := by
    unfold fetchTry getFindings getStats
    simp only [hf, hs, promiseAll, hfmt]
    exact hnotice
  exact ⟨if e.message != "" then e.message else "Failed to fetch bucket information",
    by simp [fetchData, hres, hpub]⟩

/-- C12: what a fetch attempt publishes, and where the code departs from the claim. When at
least one of the two parallel fetches fails, or both succeed and the findings response cannot
be mapped, the findings, the stats and the timestamp after the attempt are those before it and
only the error and loading fields change; so they differ after an attempt only when both
fetches succeeded. When both succeed and the findings are mapped, findings, stats and
timestamp are replaced together and the `try` block clears the error; that is the state the
attempt leaves, with no retry timer, when the list is not empty or the empty-list notice
returns. When the list is empty and the notice throws, the published data are left with an
error set; with the `toast` of the imported library that is every attempt that meets an empty
list, and a retry is scheduled. -/
theorem fetchData_no_partial_publication (w : World) (arg : RetryArg) (st : AppState) :
    (fetchFails w = true →
      ∃ message, (fetchData w arg st).state
        = { st with error := some message, loading := false })
    ∧ (∀ rf rs e, w.get "/findings" = .ok rf → w.get "/stats" = .ok rs →
        formatFindings rf.data = .error e →
        ∃ message, (fetchData w arg st).state
          = { st with error := some message, loading := false })
    ∧ (((fetchData w arg st).state.buckets ≠ st.buckets
          ∨ (fetchData w arg st).state.stats ≠ st.stats
          ∨ (fetchData w arg st).state.lastChecked ≠ st.lastChecked) →
        ∃ rf rs formatted, w.get "/findings" = .ok rf ∧ w.get "/stats" = .ok rs
          ∧ formatFindings rf.data = .ok formatted)
    ∧ (∀ rf rs formatted, w.get "/findings" = .ok rf → w.get "/stats" = .ok rs →
        formatFindings rf.data = .ok formatted →
        (fetchData w arg st).state.buckets = formatted
        ∧ (fetchData w arg st).state.stats = rs.data
        ∧ (fetchData w arg st).state.lastChecked = some w.now
        ∧ (fetchTry w { st with loading := true }).1.error = none
        ∧ ((formatted ≠ [] ∨ w.toast .info noBucketsNotice = .ok ()) →
            (fetchData w arg st).state
              = { buckets := formatted, stats := rs.data, loading := false, error := none,
                  lastChecked := some w.now }
            ∧ (fetchData w arg st).timer = none)
        ∧ (∀ e, formatted = [] → w.toast .info noBucketsNotice = .error e →
            ∃ message, (fetchData w arg st).state
              = { buckets := [], stats := rs.data, loading := false, error := some message,
                  lastChecked := some w.now }))
    ∧ (fetchData { servingWorld (.arr []) (.obj [("total_buckets", .num "0")]) with
          toast := reactHotToast } timerTrigger publishedState).state
        = { buckets := []
            stats := .obj [("total_buckets", .num "0")]
            loading := false
            error := some "toast.info is not a function"
            lastChecked := some 0 }
    ∧ (fetchData { servingWorld (.arr []) (.obj [("total_buckets", .num "0")]) with
          toast := reactHotToast } timerTrigger publishedState).timer
        = some (1000, .count 1) := by
  have hfail : fetchFails w = true →
      ∃ message, (fetchData w arg st).state
        = { st with error := some message, loading := false } := by
    intro h
    obtain ⟨message, hm⟩ := fetchData_state_of_threw w arg st (fetchTry_threw w _ h)
    refine ⟨message, ?_⟩
    rw [hm, fetchTry_fail w _ h]
  have hunmapped : ∀ rf rs e, w.get "/findings" = .ok rf → w.get "/stats" = .ok rs →
      formatFindings rf.data = .error e →
      ∃ message, (fetchData w arg st).state
        = { st with error := some message, loading := false } := by
    intro rf rs e hf hs hfmt
    have htry := fetchTry_unformatted w { st with loading := true } rf rs e hf hs hfmt
    obtain ⟨message, hm⟩ := fetchData_state_of_threw w arg st (by rw [htry]; rfl)
    refine ⟨message, ?_⟩
    rw [hm, htry]
  refine ⟨hfail, hunmapped, ?_, ?_, rfl, rfl⟩
  · intro hchanged
    by_cases h : fetchFails w = true
    · obtain ⟨message, hm⟩ := hfail h
      rw [hm] at hchanged
      simp at hchanged
    · unfold fetchFails at h
      cases hf : w.get "/findings" with
      | error e => simp [hf, threw] at h
      | ok rf =>
        cases hs : w.get "/stats" with
        | error e => simp [hf, hs, threw] at h
        | ok rs =>
          cases hfmt : formatFindings rf.data with
          | ok formatted => exact ⟨rf, rs, formatted, rfl, rfl, hfmt⟩
          | error e =>
            obtain ⟨message, hm⟩ := hunmapped rf rs e hf hs hfmt
            rw [hm] at hchanged
            simp at hchanged
  · intro rf rs formatted hf hs hfmt
    have hpub := fetchTry_publishes w { st with loading := true } rf rs formatted hf hs hfmt
    have hany : (fetchData w arg st).state.buckets = formatted
        ∧ (fetchData w arg st).state.stats = rs.data
        ∧ (fetchData w arg st).state.lastChecked = some w.now := by
      unfold fetchData
      cases hr : (fetchTry w { st with loading := true }).2.result <;>
        simp [hr, hpub]
    refine ⟨hany.1, hany.2.1, hany.2.2, by rw [hpub], ?_, ?_⟩
    · intro hnotice
      have hdone := fetchTry_completes w { st with loading := true } rf rs formatted hf hs
        hfmt hnotice
      constructor
      · simp [fetchData, hdone, hpub]
      · simp [fetchData, hdone]
    · intro e hnil hnotice
      subst hnil
      exact fetchData_notice_throws w arg st rf rs e hf hs hfmt hnotice

/-- C12 at a state published earlier: an attempt whose stats fetch is rejected with a 503,
while the findings fetch succeeds with new findings, leaves findings, stats and timestamp as
they were, and so do an attempt with the server unreachable, an attempt whose findings
response is no array and one whose findings response holds a `null`; an attempt with both
fetches successful replaces them together and leaves no error. -/
theorem fetchData_no_partial_publication_witness :
    (∃ message,
      (fetchData (statsDownWorld (.arr [.obj [("bucket_name", .str "backups"),
          ("status", .str "Insecure")]])) timerTrigger publishedState).state
        = { publishedState with error := some message, loading := false })
    ∧ (fetchData (statsDownWorld (.arr [.obj [("bucket_name", .str "backups"),
          ("status", .str "Insecure")]])) timerTrigger publishedState).state
        = { publishedState with error := some unavailableMessage, loading := false }
    ∧ (fetchData offlineWorld timerTrigger publishedState).state
        = { publishedState with error := some unreachableMessage, loading := false }
    ∧ (fetchData (servingWorld (.obj [("findings", .arr [])])
          (.obj [("total_buckets", .num "9")])) timerTrigger publishedState).state
        = { publishedState with
            error := some "findingsResponse.map is not a function", loading := false }
    ∧ (fetchData (servingWorld (.arr [.obj [("bucket_name", .str "backups")], .null])
          (.obj [("total_buckets", .num "9")])) timerTrigger publishedState).state
        = { publishedState with
            error := some "Cannot read properties of null (reading 'bucket_name')",
            loading := false }
    ∧ (fetchData (servingWorld (.arr [.obj [("bucket_name", .str "backups"),
          ("status", .str "Insecure")]]) (.obj [("total_buckets", .num "1")]))
          timerTrigger { publishedState with error := some "Server error occurred" }).state
        = { buckets := [.obj [("bucket_name", .str "backups"), ("status", .str "Insecure"),
              ("severity", .str "HIGH"), ("issues", .arr [])]]
            stats := .obj [("total_buckets", .num "1")]
            loading := false
            error := none
            lastChecked := some 0 } :=
  ⟨(fetchData_no_partial_publication _ _ _).1 rfl,
   rfl, rfl, rfl, rfl,
   ((fetchData_no_partial_publication
      (servingWorld (.arr [.obj [("bucket_name", .str "backups"),
        ("status", .str "Insecure")]]) (.obj [("total_buckets", .num "1")]))
      timerTrigger { publishedState with error := some "Server error occurred" }).2.2.2.1
      ⟨200, _⟩ ⟨200, _⟩ _ rfl rfl rfl).2.2.2.2.1 (Or.inl (by simp)) |>.1⟩

/-- The cycle that meets an empty list of findings with the `toast` of the imported library:
every attempt publishes the empty list and sets the error, and the three retries are
scheduled. -/
theorem runCycle_empty_list_retries :
    (runCycle 8 (fun _ => { servingWorld (.arr []) (.obj [("total_buckets", .num "0")]) with
        toast := reactHotToast }) 0 timerTrigger publishedState).delays = [1000, 2000, 3000]
    ∧ (runCycle 8 (fun _ => { servingWorld (.arr []) (.obj [("total_buckets", .num "0")]) with
        toast := reactHotToast }) 0 timerTrigger publishedState).final
      = { buckets := []
          stats := .obj [("total_buckets", .num "0")]
          loading := false
          error := some "toast.info is not a function"
          lastChecked := some 0 } :=
  ⟨rfl, rfl⟩

end S3Monitor
